import Mathlib

/-!
Shallow embedding of the reconciliation core of the github-configuration
repository (src/configurator.py, src/github/labels.py, src/github/milestones.py,
src/github/secrets.py, src/utils/config.py).

HTTP calls issued through GitHubApiClient are modelled by environments that fix
the response of each call; every write request (POST/PATCH/PUT/DELETE) that the
code issues is recorded in an explicit write trace.
-/

/-! ## Date parsing: model of MilestoneManager._format_due_date

The Python code tries eight strptime formats in a fixed order.  CPython's
strptime compiles each format to a regex: %Y is exactly four digits, %m is
`1[0-2]|0[1-9]|[1-9]`, %d is `3[01]|[12]\d|0[1-9]|[1-9]`, %b / %B are the
C-locale month names matched case-insensitively, a whitespace in the format
matches one or more whitespace characters, and the whole string must be
consumed.  After the regex matches, constructing the datetime raises
ValueError when the calendar date is invalid, which makes strptime fall
through to the next format. -/

def digitVal (c : Char) : Option Nat :=
  if c = '0' then some 0
  else if c = '1' then some 1
  else if c = '2' then some 2
  else if c = '3' then some 3
  else if c = '4' then some 4
  else if c = '5' then some 5
  else if c = '6' then some 6
  else if c = '7' then some 7
  else if c = '8' then some 8
  else if c = '9' then some 9
  else none

def digitChar (n : Nat) : Char :=
  if n = 0 then '0'
  else if n = 1 then '1'
  else if n = 2 then '2'
  else if n = 3 then '3'
  else if n = 4 then '4'
  else if n = 5 then '5'
  else if n = 6 then '6'
  else if n = 7 then '7'
  else if n = 8 then '8'
  else '9'

def isWsChar (c : Char) : Bool :=
  c = ' ' || c = '\t' || c = '\n' || c = '\r' || c = '\x0b' || c = '\x0c'

def dropWsChars (s : List Char) : List Char := s.dropWhile isWsChar

/-- One-or-more whitespace, as the regex \s+ produced for a blank in the format. -/
def parseWs : List Char → Option (List Char)
  | c :: r => if isWsChar c then some (dropWsChars r) else none
  | [] => none

/-- A literal separator character of the format. -/
def lit (c : Char) : List Char → Option (List Char)
  | x :: r => if x = c then some r else none
  | [] => none

/-- strptime %Y: exactly four digits. -/
def parseY : List Char → Option (Nat × List Char)
  | a :: b :: c :: d :: rest =>
    match digitVal a, digitVal b, digitVal c, digitVal d with
    | some w, some x, some y, some z => some (w * 1000 + x * 100 + y * 10 + z, rest)
    | _, _, _, _ => none
  | _ => none

/-- strptime %m: the regex alternation 1[0-2]|0[1-9]|[1-9]; the result is the
ordered list of candidate matches, so that a failing continuation backtracks
into the next alternative exactly as the regex engine does. -/
def parseM (s : List Char) : List (Nat × List Char) :=
  (match s with
   | c1 :: c2 :: rest =>
     if c1 = '1' then
       match digitVal c2 with
       | some v => if v ≤ 2 then [(10 + v, rest)] else []
       | none => []
     else []
   | _ => []) ++
  (match s with
   | c1 :: c2 :: rest =>
     if c1 = '0' then
       match digitVal c2 with
       | some v => if 1 ≤ v then [(v, rest)] else []
       | none => []
     else []
   | _ => []) ++
  (match s with
   | c :: rest =>
     match digitVal c with
     | some v => if 1 ≤ v then [(v, rest)] else []
     | none => []
   | _ => [])

/-- strptime %d: the regex alternation 3[01]|[12]\d|0[1-9]|[1-9], again as an
ordered candidate list. -/
def parseD (s : List Char) : List (Nat × List Char) :=
  (match s with
   | c1 :: c2 :: rest =>
     if c1 = '3' then
       match digitVal c2 with
       | some v => if v ≤ 1 then [(30 + v, rest)] else []
       | none => []
     else []
   | _ => []) ++
  (match s with
   | c1 :: c2 :: rest =>
     match digitVal c1, digitVal c2 with
     | some v1, some v2 => if 1 ≤ v1 ∧ v1 ≤ 2 then [(10 * v1 + v2, rest)] else []
     | _, _ => []
   | _ => []) ++
  (match s with
   | c1 :: c2 :: rest =>
     if c1 = '0' then
       match digitVal c2 with
       | some v => if 1 ≤ v then [(v, rest)] else []
       | none => []
     else []
   | _ => []) ++
  (match s with
   | c :: rest =>
     match digitVal c with
     | some v => if 1 ≤ v then [(v, rest)] else []
     | none => []
   | _ => [])

/-- Run a continuation over an ordered candidate list, taking the first
candidate whose continuation succeeds (regex backtracking). -/
def runCands {α : Type} (cs : List (Nat × List Char)) (k : Nat → List Char → Option α) :
    Option α :=
  match cs with
  | [] => none
  | (v, r) :: t =>
    match k v r with
    | some x => some x
    | none => runCands t k

def toLowerAscii (c : Char) : Char :=
  if 'A' ≤ c ∧ c ≤ 'Z' then Char.ofNat (c.toNat + 32) else c

/-- Case-insensitive match of a (lowercase) name against the input prefix. -/
def matchNameCI : List Char → List Char → Option (List Char)
  | [], s => some s
  | c :: cs, x :: xs => if toLowerAscii x = c then matchNameCI cs xs else none
  | _ :: _, [] => none

/-- C-locale month abbreviations for %b, in calendar order (all the same
length, so strptime's longest-first sort keeps this order). -/
def monthAbbrevs : List (List Char × Nat) :=
  [("jan".toList, 1), ("feb".toList, 2), ("mar".toList, 3), ("apr".toList, 4),
   ("may".toList, 5), ("jun".toList, 6), ("jul".toList, 7), ("aug".toList, 8),
   ("sep".toList, 9), ("oct".toList, 10), ("nov".toList, 11), ("dec".toList, 12)]

/-- C-locale full month names for %B, sorted longest first (stable), as
strptime builds its alternation. -/
def monthFulls : List (List Char × Nat) :=
  [("september".toList, 9), ("february".toList, 2), ("november".toList, 11),
   ("december".toList, 12), ("january".toList, 1), ("october".toList, 10),
   ("august".toList, 8), ("march".toList, 3), ("april".toList, 4),
   ("june".toList, 6), ("july".toList, 7), ("may".toList, 5)]

/-- Ordered candidate matches for a month-name field. -/
def parseMon (names : List (List Char × Nat)) (s : List Char) : List (Nat × List Char) :=
  match names with
  | [] => []
  | (nm, v) :: t =>
    match matchNameCI nm s with
    | some rest => (v, rest) :: parseMon t s
    | none => parseMon t s

def parseEnd (y m d : Nat) (s : List Char) : Option (Nat × Nat × Nat) :=
  if s = [] then some (y, m, d) else none

/-- Format "%Y<sep>%m<sep>%d" (sep is '-' or '/'). -/
def parseYmd (sep : Char) (s : List Char) : Option (Nat × Nat × Nat) :=
  match parseY s with
  | none => none
  | some (y, r1) =>
    match lit sep r1 with
    | none => none
    | some r2 =>
      runCands (parseM r2) (fun m r3 =>
        match lit sep r3 with
        | none => none
        | some r4 => runCands (parseD r4) (fun d r5 => parseEnd y m d r5))

/-- Format "%d<sep>%m<sep>%Y" (sep is '-' or '/'). -/
def parseDmy (sep : Char) (s : List Char) : Option (Nat × Nat × Nat) :=
  runCands (parseD s) (fun d r1 =>
    match lit sep r1 with
    | none => none
    | some r2 =>
      runCands (parseM r2) (fun m r3 =>
        match lit sep r3 with
        | none => none
        | some r4 =>
          match parseY r4 with
          | none => none
          | some (y, r5) => parseEnd y m d r5))

/-- Format "%b %d, %Y" (or %B with the full-name list). -/
def parseMonDY (names : List (List Char × Nat)) (s : List Char) : Option (Nat × Nat × Nat) :=
  runCands (parseMon names s) (fun m r1 =>
    match parseWs r1 with
    | none => none
    | some r2 =>
      runCands (parseD r2) (fun d r3 =>
        match lit ',' r3 with
        | none => none
        | some r4 =>
          match parseWs r4 with
          | none => none
          | some r5 =>
            match parseY r5 with
            | none => none
            | some (y, r6) => parseEnd y m d r6))

/-- Format "%d %b %Y" (or %B with the full-name list). -/
def parseDMonY (names : List (List Char × Nat)) (s : List Char) : Option (Nat × Nat × Nat) :=
  runCands (parseD s) (fun d r1 =>
    match parseWs r1 with
    | none => none
    | some r2 =>
      runCands (parseMon names r2) (fun m r3 =>
        match parseWs r3 with
        | none => none
        | some r4 =>
          match parseY r4 with
          | none => none
          | some (y, r5) => parseEnd y m d r5))

def isLeapYear (y : Nat) : Bool :=
  (y % 4 = 0 && y % 100 ≠ 0) || y % 400 = 0

def daysInMonth (y m : Nat) : Nat :=
  if m = 2 then (if isLeapYear y then 29 else 28)
  else if m = 4 ∨ m = 6 ∨ m = 9 ∨ m = 11 then 30
  else 31

/-- The datetime constructor check that strptime performs after the regex
match (the regex already guarantees 1 ≤ m ≤ 12, 1 ≤ d ≤ 31 and y ≤ 9999). -/
def validYmd (y m d : Nat) : Bool :=
  1 ≤ y && y ≤ 9999 && 1 ≤ m && m ≤ 12 && 1 ≤ d && d ≤ daysInMonth y m

def pad2 (n : Nat) : String :=
  if n < 10 then "0" ++ toString n else toString n

/-- strftime("%Y-%m-%dT23:59:59Z") for the parsed date (years below 1000 are
platform-dependent in CPython; the theorems restrict to 1000 ≤ y). -/
def isoOfYmd (y m d : Nat) : String :=
  toString y ++ "-" ++ pad2 m ++ "-" ++ pad2 d ++ "T23:59:59Z"

/-- The eight formats of milestones.py line 55, in source order. -/
def dateFormats : List (List Char → Option (Nat × Nat × Nat)) :=
  [parseYmd '-', parseYmd '/', parseDmy '-', parseDmy '/',
   parseMonDY monthAbbrevs, parseMonDY monthFulls,
   parseDMonY monthAbbrevs, parseDMonY monthFulls]

/-- Try the formats in order; an invalid calendar date raises ValueError inside
strptime and falls through to the next format, exactly like the regex failing. -/
def tryFormats : List (List Char → Option (Nat × Nat × Nat)) → List Char →
    Option (Nat × Nat × Nat)
  | [], _ => none
  | f :: fs, s =>
    match f s with
    | some (y, m, d) => if validYmd y m d then some (y, m, d) else tryFormats fs s
    | none => tryFormats fs s

/-- MilestoneManager._format_due_date on the character list of the input.
Except.error models the raised ValueError; ok none models the early return
None for a falsy input. -/
def formatDueDateChars (cs : List Char) : Except Unit (Option String) :=
  if cs = [] then .ok none
  else
    match tryFormats dateFormats cs with
    | some (y, m, d) => .ok (some (isoOfYmd y m d))
    | none => .error ()

/-- MilestoneManager._format_due_date. -/
def format_due_date (s : String) : Except Unit (Option String) :=
  formatDueDateChars s.toList


/-! ## Data model -/

/-- A label entry of the YAML configuration; `none` models a missing key
(Python dict .get defaults). -/
structure DeclLabel where
  name : Option String
  color : Option String
  description : Option String
deriving DecidableEq, Repr

/-- A label as returned by the API.  GitHub always sends name and color;
description may be JSON null, which Python sees as None (modelled none). -/
structure RemoteLabel where
  name : String
  color : String
  description : Option String
deriving DecidableEq, Repr

/-- The due_on entry of a declared milestone: missing key, present-but-null,
or a string. -/
inductive DueOn where
  | absent
  | nullv
  | str (s : String)
deriving DecidableEq, Repr

/-- A milestone entry of the YAML configuration (also the request payload
milestone_data_copy, whose due_on field gets rewritten or deleted). -/
structure DeclMilestone where
  title : Option String
  state : Option String
  description : Option String
  dueOn : DueOn
deriving DecidableEq, Repr

/-- A milestone as returned by the API (only title and number are read). -/
structure RemoteMilestone where
  title : String
  number : Nat
deriving DecidableEq, Repr

/-- A secret entry of the YAML configuration. -/
structure DeclSecret where
  name : Option String
  value : Option String
deriving DecidableEq, Repr

/-- The stats dict kept by LabelManager and MilestoneManager. -/
structure Stats where
  created : Nat
  updated : Nat
  removed : Nat
  failed : Nat
  skipped : Nat
deriving DecidableEq, Repr

def Stats.zero : Stats := ⟨0, 0, 0, 0, 0⟩

def Stats.add (a b : Stats) : Stats :=
  ⟨a.created + b.created, a.updated + b.updated, a.removed + b.removed,
   a.failed + b.failed, a.skipped + b.skipped⟩

instance : Add Stats := ⟨Stats.add⟩

def Stats.ofCreated : Stats := ⟨1, 0, 0, 0, 0⟩
def Stats.ofUpdated : Stats := ⟨0, 1, 0, 0, 0⟩
def Stats.ofRemoved : Stats := ⟨0, 0, 1, 0, 0⟩
def Stats.ofFailed : Stats := ⟨0, 0, 0, 1, 0⟩
def Stats.ofSkipped : Stats := ⟨0, 0, 0, 0, 1⟩

/-- The per-item outcome, as logged by the managers ("would" variants are the
dry-run log lines that report an intended mutation without performing it). -/
inductive Outcome where
  | created
  | updated
  | skipped
  | removed
  | failed
  | wouldCreate
  | wouldUpdate
  | wouldRemove
deriving DecidableEq, Repr

/-- A write request (POST/PATCH/PUT/DELETE) issued to GitHubApiClient.  The
title argument of deleteMilestone is ghost data recording which remote item
the DELETE (which is addressed by number) was issued for. -/
inductive Write where
  | patchLabel (name : String) (payload : DeclLabel)
  | postLabel (payload : DeclLabel)
  | deleteLabel (name : String)
  | patchMilestone (number : Nat) (payload : DeclMilestone)
  | postMilestone (payload : DeclMilestone)
  | deleteMilestone (number : Nat) (title : String)
  | putSecret (name : String) (encryptedValue : String) (keyId : String)
deriving DecidableEq, Repr

/-- Result of one manager call: the returned bool, the trace of write requests
issued, the stats-dict increments, and the outcome logged for the item. -/
structure OpResult where
  ret : Bool
  writes : List Write
  stats : Stats
  outcome : Option Outcome
deriving DecidableEq, Repr

/-! ## LabelManager (src/github/labels.py) -/

/-- Result of GET /repos/{repo}/labels/{name}: found, a RequestException
(treated as label-not-found), or any other exception (escapes to the outer
handler → Failed). -/
inductive GetLabelRes where
  | found (r : RemoteLabel)
  | reqErr
  | otherErr
deriving DecidableEq, Repr

/-- Result of a POST create call. -/
inductive PostRes where
  | ok
  | err422
  | errOther
deriving DecidableEq, Repr

/-- Responses of the API for one create_label call. -/
structure LabelEnv where
  getRes : GetLabelRes
  patchOk : Bool
  postRes : PostRes
  allLabels : Option (List RemoteLabel)
  patch2Ok : Bool
deriving DecidableEq, Repr

def labelName (l : DeclLabel) : String := l.name.getD "Unknown"

/-- Python str.lstrip("#"): strip all leading '#' characters. -/
def stripHash (s : String) : String := ⟨s.toList.dropWhile (fun c => c = '#')⟩

def toLowerStr (s : String) : String := ⟨s.toList.map toLowerAscii⟩

/-- labels.py lines 64-70: the update test.  The remote color is compared
verbatim against the declared color with leading '#' stripped (no case
folding), and the remote description (None when JSON null) is compared
against the declared description defaulting to "". -/
def needs_update (existing : RemoteLabel) (l : DeclLabel) : Bool :=
  existing.color ≠ stripHash (l.color.getD "") ||
  existing.description ≠ some (l.description.getD "")

/-- labels.py lines 108-156: the creation attempt (reached when the label was
not found, or when the found-label PATCH raised and label_exists was reset).
prior records writes already issued before this point. -/
def labelCreatePhase (l : DeclLabel) (env : LabelEnv) (prior : List Write) : OpResult :=
  match env.postRes with
  | .ok => ⟨true, prior ++ [.postLabel l], Stats.ofCreated, some .created⟩
  | .err422 =>
    match env.allLabels with
    | none =>
      -- paginate raised: escapes to the outer handler → Failed
      ⟨false, prior ++ [.postLabel l], Stats.ofFailed, some .failed⟩
    | some all =>
      match all.find? (fun ex => toLowerStr ex.name = toLowerStr (labelName l)) with
      | some ex =>
        if env.patch2Ok then
          ⟨true, prior ++ [.postLabel l, .patchLabel ex.name l], Stats.ofUpdated,
           some .updated⟩
        else
          -- the recovery PATCH raised: escapes to the outer handler → Failed
          ⟨false, prior ++ [.postLabel l, .patchLabel ex.name l], Stats.ofFailed,
           some .failed⟩
      | none => ⟨false, prior ++ [.postLabel l], Stats.ofFailed, some .failed⟩
  | .errOther => ⟨false, prior ++ [.postLabel l], Stats.ofFailed, some .failed⟩

/-- LabelManager.create_label. -/
def create_label (dryRun : Bool) (l : DeclLabel) (env : LabelEnv) : OpResult :=
  match env.getRes with
  | .found existing =>
    if needs_update existing l then
      if dryRun then ⟨true, [], Stats.zero, some .wouldUpdate⟩
      else if env.patchOk then
        ⟨true, [.patchLabel (labelName l) l], Stats.ofUpdated, some .updated⟩
      else
        -- the PATCH raised a RequestException, which the inner handler of
        -- line 100 catches, resetting label_exists: control falls through to
        -- the creation attempt
        labelCreatePhase l env [.patchLabel (labelName l) l]
    else ⟨true, [], Stats.ofSkipped, some .skipped⟩
  | .reqErr =>
    if dryRun then ⟨true, [], Stats.zero, some .wouldCreate⟩
    else labelCreatePhase l env []
  | .otherErr => ⟨false, [], Stats.ofFailed, some .failed⟩

/-! ## MilestoneManager (src/github/milestones.py) -/

/-- Result of the paginate call listing existing milestones: a list, a
RequestException (warned, creation attempt continues), or another exception
(escapes to the outer handler → Failed). -/
inductive PaginateRes where
  | ok (l : List RemoteMilestone)
  | reqErr
  | otherErr
deriving DecidableEq, Repr

/-- Responses of the API for one create_milestone call. -/
structure MsEnv where
  paginateRes : PaginateRes
  patchOk : Bool
  postRes : PostRes
deriving DecidableEq, Repr

def milestoneTitle (m : DeclMilestone) : String := m.title.getD "Unknown"

/-- milestones.py lines 95-106: convert the due_on entry of the copied dict.
On ValueError the except block only logs, leaving the original string in
place (the source of the dead None-guards further down). -/
def convertDue : DueOn → DueOn
  | .absent => .absent
  | .nullv => .nullv
  | .str s =>
    if s = "" then .str ""
    else
      match format_due_date s with
      | .ok none => .nullv
      | .ok (some iso) => .str iso
      | .error _ => .str s

/-- milestones.py lines 169-218: the creation part, reached when no existing
milestone carries the title (or the paginate call failed). -/
def milestoneCreatePhase (dryRun : Bool) (copy : DeclMilestone) (env : MsEnv) : OpResult :=
  if dryRun then ⟨true, [], Stats.zero, some .wouldCreate⟩
  else if copy.dueOn = .nullv then
    -- "Skipping milestone creation ... due to invalid date format"
    ⟨false, [], Stats.ofSkipped, some .skipped⟩
  else
    match env.postRes with
    | .ok => ⟨true, [.postMilestone copy], Stats.ofCreated, some .created⟩
    | .err422 => ⟨true, [.postMilestone copy], Stats.ofSkipped, some .skipped⟩
    | .errOther => ⟨false, [.postMilestone copy], Stats.ofFailed, some .failed⟩

/-- MilestoneManager.create_milestone. -/
def create_milestone (dryRun : Bool) (m : DeclMilestone) (env : MsEnv) : OpResult :=
  let copy : DeclMilestone := { m with dueOn := convertDue m.dueOn }
  match env.paginateRes with
  | .ok existingMilestones =>
    match existingMilestones.find? (fun ex => ex.title = milestoneTitle m) with
    | some existing =>
      if ¬dryRun then
        let payload : DeclMilestone :=
          if copy.dueOn = .nullv then { copy with dueOn := .absent } else copy
        if env.patchOk then
          ⟨true, [.patchMilestone existing.number payload], Stats.ofUpdated, some .updated⟩
        else
          ⟨false, [.patchMilestone existing.number payload], Stats.ofFailed, some .failed⟩
      else ⟨true, [], Stats.zero, some .wouldUpdate⟩
    | none => milestoneCreatePhase dryRun copy env
  | .reqErr => milestoneCreatePhase dryRun copy env
  | .otherErr => ⟨false, [], Stats.ofFailed, some .failed⟩

/-! ## SecretManager (src/github/secrets.py) -/

/-- Responses of the API for one create_or_update_secret call: the public-key
GET (key and key_id; none models a raised exception) and the PUT. -/
structure SecretEnv where
  keyRes : Option (String × String)
  putOk : Bool

/-- SecretManager.create_or_update_secret.  seal models the libsodium sealed
box (an opaque collaborator).  Note there is no dry-run parameter: the class
has none.  A missing name or value raises KeyError, caught by the blanket
handler. -/
def create_or_update_secret (sealFn : String → String → String) (s : DeclSecret)
    (env : SecretEnv) : OpResult :=
  match s.name, s.value with
  | some name, some value =>
    match env.keyRes with
    | some (key, keyId) =>
      if env.putOk then
        ⟨true, [.putSecret name (sealFn key value) keyId], Stats.zero, none⟩
      else
        ⟨false, [.putSecret name (sealFn key value) keyId], Stats.zero, none⟩
    | none => ⟨false, [], Stats.zero, none⟩
  | _, _ => ⟨false, [], Stats.zero, none⟩

/-! ## Sync passes -/

/-- Responses for a sync pass: the paginate result (none = exception, caught
by the blanket handler → return False) and the per-position DELETE results. -/
structure LabelSyncEnv where
  allRes : Option (List RemoteLabel)
  deleteOk : Nat → Bool

structure MsSyncEnv where
  allRes : Option (List RemoteMilestone)
  deleteOk : Nat → Bool

structure SyncResult where
  ret : Bool
  writes : List Write
  stats : Stats
deriving DecidableEq, Repr

/-- labels.py lines 185-206: the loop over all remote labels.  i is the
position in the remote list.  A failed DELETE increments error_count and
clears success but does not touch the stats dict. -/
def syncLabelsLoop (dryRun : Bool) (configured : List String) (deleteOk : Nat → Bool) :
    Nat → List RemoteLabel → SyncResult
  | _, [] => ⟨true, [], Stats.zero⟩
  | i, lab :: rest =>
    let tail := syncLabelsLoop dryRun configured deleteOk (i + 1) rest
    if lab.name ∈ configured then tail
    else if dryRun then tail
    else if deleteOk i then
      ⟨tail.ret, .deleteLabel lab.name :: tail.writes, Stats.ofRemoved + tail.stats⟩
    else
      ⟨false, .deleteLabel lab.name :: tail.writes, tail.stats⟩

/-- LabelManager.sync_repository_labels. -/
def sync_repository_labels (dryRun : Bool) (configured : List String)
    (env : LabelSyncEnv) : SyncResult :=
  match env.allRes with
  | none => ⟨false, [], Stats.zero⟩
  | some all => syncLabelsLoop dryRun configured env.deleteOk 0 all

/-- milestones.py lines 249-275: the loop over all remote milestones. -/
def syncMilestonesLoop (dryRun : Bool) (configured : List String) (deleteOk : Nat → Bool) :
    Nat → List RemoteMilestone → SyncResult
  | _, [] => ⟨true, [], Stats.zero⟩
  | i, ms :: rest =>
    let tail := syncMilestonesLoop dryRun configured deleteOk (i + 1) rest
    if ms.title ∈ configured then tail
    else if dryRun then tail
    else if deleteOk i then
      ⟨tail.ret, .deleteMilestone ms.number ms.title :: tail.writes,
       Stats.ofRemoved + tail.stats⟩
    else
      ⟨false, .deleteMilestone ms.number ms.title :: tail.writes, tail.stats⟩

/-- MilestoneManager.sync_repository_milestones. -/
def sync_repository_milestones (dryRun : Bool) (configured : List String)
    (env : MsSyncEnv) : SyncResult :=
  match env.allRes with
  | none => ⟨false, [], Stats.zero⟩
  | some all => syncMilestonesLoop dryRun configured env.deleteOk 0 all

/-! ## Config validation (src/utils/config.py) and the orchestrator
(src/configurator.py) -/

/-- The parsed YAML configuration; an Option list models presence of the key. -/
structure Config where
  milestones : Option (List DeclMilestone)
  labels : Option (List DeclLabel)
  secrets : Option (List DeclSecret)
deriving DecidableEq, Repr

def validateMilestones : List DeclMilestone → Except String Unit
  | [] => .ok ()
  | m :: rest =>
    if m.title.isNone then .error "missing title" else validateMilestones rest

def validateLabels : List DeclLabel → Except String Unit
  | [] => .ok ()
  | l :: rest =>
    if l.name.isNone then .error "missing name"
    else if l.color.isNone then .error "missing color"
    else validateLabels rest

/-- utils/config.py validate_config: checks each milestone for title and each
label for name and color.  Secrets are not inspected at all. -/
def validate_config (c : Config) : Except String Unit :=
  match (match c.milestones with | some ms => validateMilestones ms | none => .ok ()) with
  | .error e => .error e
  | .ok _ =>
    match c.labels with
    | some ls => validateLabels ls
    | none => .ok ()

structure RunFlags where
  dryRun : Bool
  syncLabels : Bool
  syncMilestones : Bool

/-- The API responses for one repository: one environment per declared item
(indexed by its position in the configuration list) plus the sync
environments and the sealing collaborator. -/
structure RepoEnv where
  msEnv : Nat → MsEnv
  labEnv : Nat → LabelEnv
  secEnv : Nat → SecretEnv
  msSyncEnv : MsSyncEnv
  labSyncEnv : LabelSyncEnv
  sealFn : String → String → String

/-- Outcome of apply_config_to_repository: the success flag, the full ordered
write trace, and the two managers' stats increments. -/
structure ApplyResult where
  ret : Bool
  writes : List Write
  labelStats : Stats
  msStats : Stats
deriving DecidableEq, Repr

/-- configurator.py lines 117-121: process the declared milestones in order,
collecting every title (get("title", "")) unconditionally. -/
def applyMilestones (dryRun : Bool) (env : Nat → MsEnv) :
    Nat → List DeclMilestone → (Bool × List Write × Stats × List String)
  | _, [] => (true, [], Stats.zero, [])
  | i, m :: rest =>
    let r := create_milestone dryRun m (env i)
    let t := applyMilestones dryRun env (i + 1) rest
    (r.ret && t.1, r.writes ++ t.2.1, r.stats + t.2.2.1, (m.title.getD "") :: t.2.2.2)

/-- configurator.py lines 124-128: process the declared labels in order,
collecting every name (get("name", "")) unconditionally. -/
def applyLabels (dryRun : Bool) (env : Nat → LabelEnv) :
    Nat → List DeclLabel → (Bool × List Write × Stats × List String)
  | _, [] => (true, [], Stats.zero, [])
  | i, l :: rest =>
    let r := create_label dryRun l (env i)
    let t := applyLabels dryRun env (i + 1) rest
    (r.ret && t.1, r.writes ++ t.2.1, r.stats + t.2.2.1, (l.name.getD "") :: t.2.2.2)

/-- configurator.py lines 131-134: process the declared secrets in order. -/
def applySecrets (sealFn : String → String → String) (env : Nat → SecretEnv) :
    Nat → List DeclSecret → (Bool × List Write)
  | _, [] => (true, [])
  | i, s :: rest =>
    let r := create_or_update_secret sealFn s (env i)
    let t := applySecrets sealFn env (i + 1) rest
    (r.ret && t.1, r.writes ++ t.2)

/-- GitHubConfigurator.apply_config_to_repository. -/
def apply_config_to_repository (flags : RunFlags) (config : Config) (env : RepoEnv) :
    ApplyResult :=
  let msPart :=
    match config.milestones with
    | some ms => applyMilestones flags.dryRun env.msEnv 0 ms
    | none => (true, [], Stats.zero, [])
  let labPart :=
    match config.labels with
    | some ls => applyLabels flags.dryRun env.labEnv 0 ls
    | none => (true, [], Stats.zero, [])
  let secPart :=
    match config.secrets with
    | some ss => applySecrets env.sealFn env.secEnv 0 ss
    | none => (true, [])
  let msSync :=
    if flags.syncMilestones ∧ config.milestones.isSome then
      sync_repository_milestones flags.dryRun msPart.2.2.2 env.msSyncEnv
    else ⟨true, [], Stats.zero⟩
  let labSync :=
    if flags.syncLabels ∧ config.labels.isSome then
      sync_repository_labels flags.dryRun labPart.2.2.2 env.labSyncEnv
    else ⟨true, [], Stats.zero⟩
  { ret := msPart.1 && labPart.1 && secPart.1 && msSync.ret && labSync.ret
    writes := msPart.2.1 ++ labPart.2.1 ++ secPart.2 ++ msSync.writes ++ labSync.writes
    labelStats := labPart.2.2.1 + labSync.stats
    msStats := msPart.2.2.1 + msSync.stats }

/-! ## Helper functions over write traces -/

def Write.isPutSecret : Write → Bool
  | .putSecret _ _ _ => true
  | _ => false

def deleteLabelNames (ws : List Write) : List String :=
  ws.filterMap (fun w => match w with | .deleteLabel n => some n | _ => none)

def deletedMilestoneTitles (ws : List Write) : List String :=
  ws.filterMap (fun w => match w with | .deleteMilestone _ t => some t | _ => none)

def declaredLabelNames (ls : List DeclLabel) : List String :=
  ls.map (fun l => l.name.getD "")

def declaredMilestoneTitles (ms : List DeclMilestone) : List String :=
  ms.map (fun m => m.title.getD "")

/-- A stats increment that touches none of created/updated/removed. -/
def statsNoMutation (s : Stats) : Prop :=
  s.created = 0 ∧ s.updated = 0 ∧ s.removed = 0

/-- A concrete environment used to instantiate the universally quantified
theorems: every call succeeds, the remote starts empty. -/
def sampleRepoEnv : RepoEnv where
  msEnv := fun _ => ⟨.ok [], true, .ok⟩
  labEnv := fun _ => ⟨.reqErr, true, .ok, some [], true⟩
  secEnv := fun _ => ⟨some ("K", "1"), true⟩
  msSyncEnv := ⟨some [], fun _ => true⟩
  labSyncEnv := ⟨some [], fun _ => true⟩
  sealFn := fun _ _ => "E"

def sampleConfig : Config where
  milestones := some [⟨some "v1", some "open", some "first", .str "2025-05-04"⟩]
  labels := some [⟨some "bug", some "d73a4a", some ""⟩]
  secrets := some [⟨some "S", some "V"⟩]

/-- The PATCH payload sent when updating an existing milestone: the converted
copy, with due_on removed only when it is None (milestones.py lines 133-141). -/
def msPayload (m : DeclMilestone) : DeclMilestone :=
  let copy : DeclMilestone := { m with dueOn := convertDue m.dueOn }
  if copy.dueOn = .nullv then { copy with dueOn := .absent } else copy

def Write.isDelete : Write → Bool
  | .deleteLabel _ => true
  | .deleteMilestone _ _ => true
  | _ => false

/-- A concrete sync scenario: remote has one undeclared label ("wontfix") and
one undeclared milestone ("old") besides the declared ones. -/
def syncSampleEnv : RepoEnv where
  msEnv := fun _ => ⟨.ok [⟨"v1", 1⟩, ⟨"old", 2⟩], true, .ok⟩
  labEnv := fun _ => ⟨.reqErr, true, .ok, some [], true⟩
  secEnv := fun _ => ⟨some ("K", "1"), true⟩
  msSyncEnv := ⟨some [⟨"v1", 1⟩, ⟨"old", 2⟩], fun _ => true⟩
  labSyncEnv := ⟨some [⟨"bug", "d73a4a", some ""⟩, ⟨"wontfix", "ffffff", none⟩],
    fun _ => true⟩
  sealFn := fun _ _ => "E"

def syncSampleConfig : Config where
  milestones := some [⟨some "v1", none, none, .absent⟩]
  labels := some [⟨some "bug", some "d73a4a", some ""⟩]
  secrets := none

/-! ## Textual renderings of a calendar date, for the eight supported formats -/

def render2 (n : Nat) : List Char := [digitChar (n / 10 % 10), digitChar (n % 10)]

def render4 (y : Nat) : List Char :=
  [digitChar (y / 1000 % 10), digitChar (y / 100 % 10), digitChar (y / 10 % 10),
   digitChar (y % 10)]

def monthAbbrCap (m : Nat) : List Char :=
  if m = 1 then ['J','a','n'] else if m = 2 then ['F','e','b']
  else if m = 3 then ['M','a','r'] else if m = 4 then ['A','p','r']
  else if m = 5 then ['M','a','y'] else if m = 6 then ['J','u','n']
  else if m = 7 then ['J','u','l'] else if m = 8 then ['A','u','g']
  else if m = 9 then ['S','e','p'] else if m = 10 then ['O','c','t']
  else if m = 11 then ['N','o','v'] else ['D','e','c']

def monthFullCap (m : Nat) : List Char :=
  if m = 1 then ['J','a','n','u','a','r','y'] else if m = 2 then ['F','e','b','r','u','a','r','y']
  else if m = 3 then ['M','a','r','c','h'] else if m = 4 then ['A','p','r','i','l']
  else if m = 5 then ['M','a','y'] else if m = 6 then ['J','u','n','e']
  else if m = 7 then ['J','u','l','y'] else if m = 8 then ['A','u','g','u','s','t']
  else if m = 9 then ['S','e','p','t','e','m','b','e','r']
  else if m = 10 then ['O','c','t','o','b','e','r']
  else if m = 11 then ['N','o','v','e','m','b','e','r']
  else ['D','e','c','e','m','b','e','r']

/-- Rendering "YYYY<sep>MM<sep>DD". -/
def renderYmdSep (sep : Char) (y m d : Nat) : List Char :=
  render4 y ++ sep :: (render2 m ++ sep :: render2 d)

/-- Rendering "DD<sep>MM<sep>YYYY". -/
def renderDmySep (sep : Char) (y m d : Nat) : List Char :=
  render2 d ++ sep :: (render2 m ++ sep :: render4 y)

/-- Rendering "Mon DD, YYYY". -/
def renderMonDY (name : Nat → List Char) (y m d : Nat) : List Char :=
  name m ++ ' ' :: (render2 d ++ ',' :: ' ' :: render4 y)

/-- Rendering "DD Mon YYYY". -/
def renderDMonY (name : Nat → List Char) (y m d : Nat) : List Char :=
  render2 d ++ ' ' :: (name m ++ ' ' :: render4 y)

/-- The eight textual forms of one calendar date, in the order of the format
list of milestones.py line 55. -/
def dateRenderings (y m d : Nat) : List (List Char) :=
  [renderYmdSep '-' y m d, renderYmdSep '/' y m d,
   renderDmySep '-' y m d, renderDmySep '/' y m d,
   renderMonDY monthAbbrCap y m d, renderMonDY monthFullCap y m d,
   renderDMonY monthAbbrCap y m d, renderDMonY monthFullCap y m d]

/-! ## Dry-run behavior of the individual operations -/

theorem create_label_dryRun_writes (l : DeclLabel) (env : LabelEnv) :
    (create_label true l env).writes = [] := by
  unfold create_label
  cases env.getRes with
  | found r => by_cases h : needs_update r l <;> simp [h]
  | reqErr => simp
  | otherErr => rfl

theorem create_milestone_dryRun_writes (m : DeclMilestone) (env : MsEnv) :
    (create_milestone true m env).writes = [] := by
  unfold create_milestone milestoneCreatePhase
  cases env.paginateRes with
  | ok l =>
    split <;> simp
    split <;> simp
  | reqErr => rfl
  | otherErr => rfl

theorem syncLabelsLoop_dryRun_writes (cfg : List String) (ok : Nat → Bool)
    (i : Nat) (all : List RemoteLabel) :
    (syncLabelsLoop true cfg ok i all).writes = [] := by
  induction all generalizing i with
  | nil => rfl
  | cons lab rest ih => simp [syncLabelsLoop, ih]

theorem syncMilestonesLoop_dryRun_writes (cfg : List String) (ok : Nat → Bool)
    (i : Nat) (all : List RemoteMilestone) :
    (syncMilestonesLoop true cfg ok i all).writes = [] := by
  induction all generalizing i with
  | nil => rfl
  | cons ms rest ih => simp [syncMilestonesLoop, ih]

theorem sync_repository_labels_dryRun_writes (cfg : List String) (env : LabelSyncEnv) :
    (sync_repository_labels true cfg env).writes = [] := by
  unfold sync_repository_labels
  cases env.allRes with
  | none => rfl
  | some all => exact syncLabelsLoop_dryRun_writes cfg env.deleteOk 0 all

theorem sync_repository_milestones_dryRun_writes (cfg : List String) (env : MsSyncEnv) :
    (sync_repository_milestones true cfg env).writes = [] := by
  unfold sync_repository_milestones
  cases env.allRes with
  | none => rfl
  | some all => exact syncMilestonesLoop_dryRun_writes cfg env.deleteOk 0 all

theorem create_or_update_secret_writes_putSecret (f : String → String → String)
    (s : DeclSecret) (env : SecretEnv) :
    ∀ w ∈ (create_or_update_secret f s env).writes, w.isPutSecret = true := by
  unfold create_or_update_secret
  rcases s with ⟨name, value⟩
  cases name <;> cases value <;> simp
  case some.some n v =>
    cases env.keyRes with
    | none => simp
    | some kv =>
      cases env.putOk <;> simp [Write.isPutSecret]

theorem applyLabels_dryRun_writes (env : Nat → LabelEnv) (i : Nat) (ls : List DeclLabel) :
    (applyLabels true env i ls).2.1 = [] := by
  induction ls generalizing i with
  | nil => rfl
  | cons l rest ih => simp [applyLabels, create_label_dryRun_writes, ih]

theorem applyMilestones_dryRun_writes (env : Nat → MsEnv) (i : Nat)
    (ms : List DeclMilestone) :
    (applyMilestones true env i ms).2.1 = [] := by
  induction ms generalizing i with
  | nil => rfl
  | cons m rest ih => simp [applyMilestones, create_milestone_dryRun_writes, ih]

theorem applySecrets_writes_putSecret (f : String → String → String)
    (env : Nat → SecretEnv) (i : Nat) (ss : List DeclSecret) :
    ∀ w ∈ (applySecrets f env i ss).2, w.isPutSecret = true := by
  induction ss generalizing i with
  | nil => intro w hw; simp [applySecrets] at hw
  | cons s rest ih =>
    intro w hw
    simp [applySecrets] at hw
    rcases hw with hw | hw
    · exact create_or_update_secret_writes_putSecret f s (env i) w hw
    · exact ih (i + 1) w hw

theorem Stats.created_add (a b : Stats) : (a + b).created = a.created + b.created := rfl

theorem Stats.updated_add (a b : Stats) : (a + b).updated = a.updated + b.updated := rfl

theorem Stats.removed_add (a b : Stats) : (a + b).removed = a.removed + b.removed := rfl

theorem statsNoMutation_add {a b : Stats} (ha : statsNoMutation a)
    (hb : statsNoMutation b) : statsNoMutation (a + b) := by
  obtain ⟨h1, h2, h3⟩ := ha
  obtain ⟨g1, g2, g3⟩ := hb
  exact ⟨by rw [Stats.created_add, h1, g1], by rw [Stats.updated_add, h2, g2],
         by rw [Stats.removed_add, h3, g3]⟩

theorem create_label_dryRun_noMutation (l : DeclLabel) (env : LabelEnv) :
    statsNoMutation (create_label true l env).stats := by
  unfold create_label
  cases env.getRes with
  | found r =>
    by_cases h : needs_update r l <;>
      simp [h, statsNoMutation, Stats.zero, Stats.ofSkipped]
  | reqErr => simp [statsNoMutation, Stats.zero]
  | otherErr => simp [statsNoMutation, Stats.ofFailed]

theorem create_milestone_dryRun_noMutation (m : DeclMilestone) (env : MsEnv) :
    statsNoMutation (create_milestone true m env).stats := by
  unfold create_milestone milestoneCreatePhase
  cases env.paginateRes with
  | ok l =>
    split <;> simp [statsNoMutation, Stats.zero, Stats.ofFailed]
    split <;> simp [statsNoMutation, Stats.zero]
  | reqErr => simp [statsNoMutation, Stats.zero]
  | otherErr => simp [statsNoMutation, Stats.ofFailed]

theorem syncLabelsLoop_dryRun_stats (cfg : List String) (ok : Nat → Bool)
    (i : Nat) (all : List RemoteLabel) :
    (syncLabelsLoop true cfg ok i all).stats = Stats.zero := by
  induction all generalizing i with
  | nil => rfl
  | cons lab rest ih => simp [syncLabelsLoop, ih]

theorem syncMilestonesLoop_dryRun_stats (cfg : List String) (ok : Nat → Bool)
    (i : Nat) (all : List RemoteMilestone) :
    (syncMilestonesLoop true cfg ok i all).stats = Stats.zero := by
  induction all generalizing i with
  | nil => rfl
  | cons ms rest ih => simp [syncMilestonesLoop, ih]

theorem sync_repository_labels_dryRun_stats (cfg : List String) (env : LabelSyncEnv) :
    (sync_repository_labels true cfg env).stats = Stats.zero := by
  unfold sync_repository_labels
  cases env.allRes with
  | none => rfl
  | some all => exact syncLabelsLoop_dryRun_stats cfg env.deleteOk 0 all

theorem sync_repository_milestones_dryRun_stats (cfg : List String) (env : MsSyncEnv) :
    (sync_repository_milestones true cfg env).stats = Stats.zero := by
  unfold sync_repository_milestones
  cases env.allRes with
  | none => rfl
  | some all => exact syncMilestonesLoop_dryRun_stats cfg env.deleteOk 0 all

theorem applyLabels_dryRun_noMutation (env : Nat → LabelEnv) (i : Nat)
    (ls : List DeclLabel) : statsNoMutation (applyLabels true env i ls).2.2.1 := by
  induction ls generalizing i with
  | nil => exact ⟨rfl, rfl, rfl⟩
  | cons l rest ih =>
    exact statsNoMutation_add (create_label_dryRun_noMutation l (env i)) (ih (i + 1))

theorem applyMilestones_dryRun_noMutation (env : Nat → MsEnv) (i : Nat)
    (ms : List DeclMilestone) : statsNoMutation (applyMilestones true env i ms).2.2.1 := by
  induction ms generalizing i with
  | nil => exact ⟨rfl, rfl, rfl⟩
  | cons m rest ih =>
    exact statsNoMutation_add (create_milestone_dryRun_noMutation m (env i)) (ih (i + 1))

/-- Claim C10 theorem: with dry-run enabled, the created/updated/removed
counters of both managers stay at zero for the whole
apply_config_to_repository pass (only skipped and failed can move). -/
theorem dry_run_stats_zero (flags : RunFlags) (config : Config) (env : RepoEnv)
    (hdry : flags.dryRun = true) :
    statsNoMutation (apply_config_to_repository flags config env).labelStats ∧
    statsNoMutation (apply_config_to_repository flags config env).msStats := by
  rcases flags with ⟨dry, sl, sm⟩
  have hd : dry = true := hdry
  subst hd
  rcases config with ⟨cms, cls, css⟩
  unfold apply_config_to_repository
  dsimp only
  constructor
  · apply statsNoMutation_add
    · cases cls with
      | none => exact ⟨rfl, rfl, rfl⟩
      | some ls => exact applyLabels_dryRun_noMutation _ 0 ls
    · split
      · rw [sync_repository_labels_dryRun_stats]; exact ⟨rfl, rfl, rfl⟩
      · exact ⟨rfl, rfl, rfl⟩
  · apply statsNoMutation_add
    · cases cms with
      | none => exact ⟨rfl, rfl, rfl⟩
      | some ms => exact applyMilestones_dryRun_noMutation _ 0 ms
    · split
      · rw [sync_repository_milestones_dryRun_stats]; exact ⟨rfl, rfl, rfl⟩
      · exact ⟨rfl, rfl, rfl⟩

/-- Claim C10 witness: the theorem applied to a concrete dry-run pass. -/
theorem dry_run_stats_zero_witness :
    statsNoMutation (apply_config_to_repository ⟨true, true, true⟩ sampleConfig
      sampleRepoEnv).labelStats ∧
    statsNoMutation (apply_config_to_repository ⟨true, true, true⟩ sampleConfig
      sampleRepoEnv).msStats :=
  dry_run_stats_zero ⟨true, true, true⟩ sampleConfig sampleRepoEnv rfl

/-- Claim C4 amended theorem: with dry-run enabled no POST/PATCH/DELETE for
labels or milestones reaches the API client; the only writes possibly issued
are secret PUTs, because SecretManager has no dry-run short-circuit. -/
theorem dry_run_only_secret_puts (flags : RunFlags) (config : Config) (env : RepoEnv)
    (hdry : flags.dryRun = true) :
    (apply_config_to_repository flags config env).writes.all Write.isPutSecret = true := by
  rw [List.all_eq_true]
  rcases flags with ⟨dry, sl, sm⟩
  have hd : dry = true := hdry
  subst hd
  rcases config with ⟨cms, cls, css⟩
  unfold apply_config_to_repository
  dsimp only
  intro w hw
  simp only [List.mem_append] at hw
  rcases hw with ((((hw | hw) | hw) | hw) | hw)
  · cases cms with
    | none => simp at hw
    | some ms => rw [applyMilestones_dryRun_writes] at hw; simp at hw
  · cases cls with
    | none => simp at hw
    | some ls => rw [applyLabels_dryRun_writes] at hw; simp at hw
  · cases css with
    | none => simp at hw
    | some ss => exact applySecrets_writes_putSecret _ _ 0 ss w hw
  · revert hw
    split
    · rw [sync_repository_milestones_dryRun_writes]; intro hw; simp at hw
    · intro hw; simp at hw
  · revert hw
    split
    · rw [sync_repository_labels_dryRun_writes]; intro hw; simp at hw
    · intro hw; simp at hw

/-- Claim C4 witness: concrete dry-run pass over one milestone, one label and
one secret; all writes are secret PUTs. -/
theorem dry_run_only_secret_puts_witness :
    (apply_config_to_repository ⟨true, true, true⟩ sampleConfig
      sampleRepoEnv).writes.all Write.isPutSecret = true :=
  dry_run_only_secret_puts ⟨true, true, true⟩ sampleConfig sampleRepoEnv rfl

/-- Claim C4 counterexample: with dry-run enabled, the declared secret is
still encrypted and PUT to the API — a write reaches the Resource Client, so
the claim as stated (no POST/PATCH/PUT/DELETE for any label, milestone or
secret) is false. -/
theorem dry_run_secret_put_cex :
    (apply_config_to_repository ⟨true, true, true⟩
      ⟨none, none, some [⟨some "S", some "V"⟩]⟩ sampleRepoEnv).writes =
      [.putSecret "S" "E" "1"] := rfl

/-! ## The found-label update path and second-pass behavior -/

/-- Claim C2 amended theorem: when the declared label is found by name, the
remote color is compared case-SENSITIVELY against the declared color with
leading '#' stripped, and the descriptions are compared; if either differs
the label is updated (a would-update log under dry-run, no write), and if
both are identical the outcome is Skipped with no write issued. -/
theorem create_label_found_update_semantics (dryRun : Bool) (l : DeclLabel)
    (r : RemoteLabel) (env : LabelEnv) (hget : env.getRes = .found r)
    (hpatch : env.patchOk = true) :
    (needs_update r l = false →
      create_label dryRun l env = ⟨true, [], Stats.ofSkipped, some .skipped⟩) ∧
    (needs_update r l = true → dryRun = true →
      create_label dryRun l env = ⟨true, [], Stats.zero, some .wouldUpdate⟩) ∧
    (needs_update r l = true → dryRun = false →
      create_label dryRun l env =
        ⟨true, [.patchLabel (labelName l) l], Stats.ofUpdated, some .updated⟩) := by
  refine ⟨?_, ?_, ?_⟩
  · intro h
    simp [create_label, hget, h]
  · intro h hdry
    subst hdry
    simp [create_label, hget, h]
  · intro h hdry
    subst hdry
    simp [create_label, hget, h, hpatch]

/-- Claim C2 witness: a label whose remote state matches exactly is skipped
with no write. -/
theorem create_label_found_update_semantics_witness :
    create_label false ⟨some "bug", some "#d73a4a", some "desc"⟩
      ⟨.found ⟨"bug", "d73a4a", some "desc"⟩, true, .ok, some [], true⟩ =
      ⟨true, [], Stats.ofSkipped, some .skipped⟩ :=
  (create_label_found_update_semantics false ⟨some "bug", some "#d73a4a", some "desc"⟩
    ⟨"bug", "d73a4a", some "desc"⟩
    ⟨.found ⟨"bug", "d73a4a", some "desc"⟩, true, .ok, some [], true⟩ rfl rfl).1 (by decide)

/-- Claim C2 counterexample: remote color D73A4A and declared color d73a4a
are identical after case-insensitive hex comparison, yet create_label takes
the update branch and issues a PATCH — the comparison in labels.py lines
64-70 has no case folding. -/
theorem label_color_case_cex :
    toLowerStr (stripHash "d73a4a") =
      toLowerStr (RemoteLabel.color ⟨"bug", "D73A4A", some ""⟩) ∧
    create_label false ⟨some "bug", some "d73a4a", some ""⟩
      ⟨.found ⟨"bug", "D73A4A", some ""⟩, true, .ok, some [], true⟩ =
      ⟨true, [.patchLabel "bug" ⟨some "bug", some "d73a4a", some ""⟩],
       Stats.ofUpdated, some .updated⟩ :=
  ⟨rfl, rfl⟩

/-- Claim C1 amended theorem: on a second pass over already-matching state,
every declared label is Skipped with no write, but every declared milestone
found by title is unconditionally PATCHed again with outcome Updated —
create_milestone performs no field comparison, so the second pass is
idempotent in effect for labels only, never Skipped for found milestones. -/
theorem second_pass_labels_skipped_milestones_updated
    (dryRun : Bool) (l : DeclLabel) (r : RemoteLabel) (lenv : LabelEnv)
    (m : DeclMilestone) (lst : List RemoteMilestone) (ex : RemoteMilestone) (menv : MsEnv)
    (hget : lenv.getRes = .found r) (hmatch : needs_update r l = false)
    (hpag : menv.paginateRes = .ok lst)
    (hfind : lst.find? (fun e => e.title = milestoneTitle m) = some ex)
    (hpatch : menv.patchOk = true) :
    create_label dryRun l lenv = ⟨true, [], Stats.ofSkipped, some .skipped⟩ ∧
    create_milestone false m menv =
      ⟨true, [.patchMilestone ex.number (msPayload m)], Stats.ofUpdated,
       some .updated⟩ := by
  constructor
  · simp [create_label, hget, hmatch]
  · simp [create_milestone, hpag, hfind, hpatch, msPayload]

/-- Claim C1 witness: a second pass on matching state — the label is skipped,
the milestone with an identical remote counterpart is updated again. -/
theorem second_pass_labels_skipped_milestones_updated_witness :
    create_label false ⟨some "bug", some "d73a4a", some ""⟩
      ⟨.found ⟨"bug", "d73a4a", some ""⟩, true, .ok, some [], true⟩ =
      ⟨true, [], Stats.ofSkipped, some .skipped⟩ ∧
    create_milestone false ⟨some "v1", none, none, .absent⟩
      ⟨.ok [⟨"v1", 7⟩], true, .ok⟩ =
      ⟨true, [.patchMilestone 7 (msPayload ⟨some "v1", none, none, .absent⟩)],
       Stats.ofUpdated, some .updated⟩ :=
  second_pass_labels_skipped_milestones_updated false
    ⟨some "bug", some "d73a4a", some ""⟩ ⟨"bug", "d73a4a", some ""⟩
    ⟨.found ⟨"bug", "d73a4a", some ""⟩, true, .ok, some [], true⟩
    ⟨some "v1", none, none, .absent⟩ [⟨"v1", 7⟩] ⟨"v1", 7⟩
    ⟨.ok [⟨"v1", 7⟩], true, .ok⟩ rfl (by decide) rfl (by decide) rfl

/-- Claim C1 counterexample: a declared milestone whose remote counterpart
already matches (same title, nothing else is ever compared) is not Skipped on
the second pass: create_milestone issues another PATCH and reports Updated. -/
theorem milestone_second_pass_updates_cex :
    create_milestone false ⟨some "v1", none, none, .absent⟩
      ⟨.ok [⟨"v1", 7⟩], true, .ok⟩ =
      ⟨true, [.patchMilestone 7 ⟨some "v1", none, none, .absent⟩],
       Stats.ofUpdated, some .updated⟩ := rfl

/-- Claim C3 theorem (code bug): for a due date string no format parses, the
ValueError handler of milestones.py lines 102-106 leaves the original string
in due_on, so the None-guards at lines 134-141 and 176-184 never fire: the
creation is NOT skipped (a POST carrying the unparseable string is issued)
and the update payload still carries the unparseable due_on instead of
omitting it. -/
theorem unparseable_due_date_still_posted :
    format_due_date "not-a-date" = .error () ∧
    create_milestone false ⟨some "v1", none, none, .str "not-a-date"⟩
      ⟨.ok [], true, .ok⟩ =
      ⟨true, [.postMilestone ⟨some "v1", none, none, .str "not-a-date"⟩],
       Stats.ofCreated, some .created⟩ ∧
    create_milestone false ⟨some "v1", none, none, .str "not-a-date"⟩
      ⟨.ok [⟨"v1", 7⟩], true, .ok⟩ =
      ⟨true, [.patchMilestone 7 ⟨some "v1", none, none, .str "not-a-date"⟩],
       Stats.ofUpdated, some .updated⟩ :=
  ⟨rfl, rfl, rfl⟩

/-- Claim C7 theorem: after a 422 on label creation, the full remote list is
re-fetched and searched for a case-insensitive name match; a found match is
PATCHed to the declared values — exactly one Updated outcome and no Created —
and with no match the outcome is Failed. -/
theorem create_label_422_recovery (l : DeclLabel) (env : LabelEnv)
    (all : List RemoteLabel)
    (hget : env.getRes = .reqErr) (hpost : env.postRes = .err422)
    (hall : env.allLabels = some all) (hpatch : env.patch2Ok = true) :
    (∀ ex, all.find? (fun e => toLowerStr e.name = toLowerStr (labelName l)) = some ex →
      create_label false l env =
        ⟨true, [.postLabel l, .patchLabel ex.name l], Stats.ofUpdated, some .updated⟩) ∧
    (all.find? (fun e => toLowerStr e.name = toLowerStr (labelName l)) = none →
      create_label false l env =
        ⟨false, [.postLabel l], Stats.ofFailed, some .failed⟩) := by
  constructor
  · intro ex hfind
    simp [create_label, labelCreatePhase, hget, hpost, hall, hfind, hpatch]
  · intro hfind
    simp [create_label, labelCreatePhase, hget, hpost, hall, hfind]

/-- Claim C7 witness: declaring "Bug" when the remote has "bug" converges to
one Updated outcome via the 422 recovery path. -/
theorem create_label_422_recovery_witness :
    create_label false ⟨some "Bug", some "d73a4a", some ""⟩
      ⟨.reqErr, true, .err422, some [⟨"bug", "ff0000", some ""⟩], true⟩ =
      ⟨true, [.postLabel ⟨some "Bug", some "d73a4a", some ""⟩,
              .patchLabel "bug" ⟨some "Bug", some "d73a4a", some ""⟩],
       Stats.ofUpdated, some .updated⟩ :=
  (create_label_422_recovery ⟨some "Bug", some "d73a4a", some ""⟩
    ⟨.reqErr, true, .err422, some [⟨"bug", "ff0000", some ""⟩], true⟩
    [⟨"bug", "ff0000", some ""⟩] rfl rfl rfl rfl).1 ⟨"bug", "ff0000", some ""⟩ (by decide)

/-! ## Write-trace shape of the create/update phases (no deletions) -/

theorem labelCreatePhase_no_delete (l : DeclLabel) (env : LabelEnv) (prior : List Write)
    (hp : ∀ w ∈ prior, w.isDelete = false) :
    ∀ w ∈ (labelCreatePhase l env prior).writes, w.isDelete = false := by
  unfold labelCreatePhase
  split <;> (try split) <;> (try split) <;> (try split) <;>
    intro w hw <;>
    simp only [List.mem_append, List.mem_cons, List.not_mem_nil, or_false] at hw <;>
    (first
      | (rcases hw with hw | rfl | rfl <;> first | exact hp w hw | rfl)
      | (rcases hw with hw | rfl <;> first | exact hp w hw | rfl))

theorem create_label_writes_no_delete (d : Bool) (l : DeclLabel) (env : LabelEnv) :
    ∀ w ∈ (create_label d l env).writes, w.isDelete = false := by
  unfold create_label
  split
  · split
    · split
      · intro w hw; simp at hw
      · split
        · intro w hw; simp at hw; subst hw; rfl
        · exact labelCreatePhase_no_delete l env _
            (by intro w hw; simp at hw; subst hw; rfl)
    · intro w hw; simp at hw
  · split
    · intro w hw; simp at hw
    · exact labelCreatePhase_no_delete l env [] (by intro w hw; simp at hw)
  · intro w hw; simp at hw

theorem create_milestone_writes_no_delete (d : Bool) (m : DeclMilestone) (env : MsEnv) :
    ∀ w ∈ (create_milestone d m env).writes, w.isDelete = false := by
  intro w hw
  unfold create_milestone milestoneCreatePhase at hw
  split at hw <;> (try split at hw) <;> (try split at hw) <;> (try split at hw) <;>
    (try split at hw) <;> (try split at hw) <;>
    (try (by_cases hdue : convertDue m.dueOn = DueOn.nullv <;> simp only [hdue] at hw)) <;>
    simp at hw <;>
    (first
      | exact hw.elim
      | (subst hw; rfl))

theorem create_or_update_secret_writes_no_delete (f : String → String → String)
    (s : DeclSecret) (env : SecretEnv) :
    ∀ w ∈ (create_or_update_secret f s env).writes, w.isDelete = false := by
  intro w hw
  have h := create_or_update_secret_writes_putSecret f s env w hw
  cases w <;> simp [Write.isPutSecret] at h <;> rfl

theorem deleteNames_nil_of_no_delete (ws : List Write)
    (h : ∀ w ∈ ws, w.isDelete = false) :
    deleteLabelNames ws = [] ∧ deletedMilestoneTitles ws = [] := by
  induction ws with
  | nil => exact ⟨rfl, rfl⟩
  | cons w rest ih =>
    have hw := h w (List.mem_cons_self w rest)
    have hrest := ih (fun x hx => h x (List.mem_cons_of_mem w hx))
    cases w <;>
      simp_all [deleteLabelNames, deletedMilestoneTitles, Write.isDelete, List.filterMap]

theorem applyLabels_writes_no_delete (d : Bool) (env : Nat → LabelEnv) (i : Nat)
    (ls : List DeclLabel) :
    ∀ w ∈ (applyLabels d env i ls).2.1, w.isDelete = false := by
  induction ls generalizing i with
  | nil => intro w hw; simp [applyLabels] at hw
  | cons l rest ih =>
    intro w hw
    simp only [applyLabels, List.mem_append] at hw
    rcases hw with hw | hw
    · exact create_label_writes_no_delete d l (env i) w hw
    · exact ih (i + 1) w hw

theorem applyMilestones_writes_no_delete (d : Bool) (env : Nat → MsEnv) (i : Nat)
    (ms : List DeclMilestone) :
    ∀ w ∈ (applyMilestones d env i ms).2.1, w.isDelete = false := by
  induction ms generalizing i with
  | nil => intro w hw; simp [applyMilestones] at hw
  | cons m rest ih =>
    intro w hw
    simp only [applyMilestones, List.mem_append] at hw
    rcases hw with hw | hw
    · exact create_milestone_writes_no_delete d m (env i) w hw
    · exact ih (i + 1) w hw

theorem applySecrets_writes_no_delete (f : String → String → String)
    (env : Nat → SecretEnv) (i : Nat) (ss : List DeclSecret) :
    ∀ w ∈ (applySecrets f env i ss).2, w.isDelete = false := by
  induction ss generalizing i with
  | nil => intro w hw; simp [applySecrets] at hw
  | cons s rest ih =>
    intro w hw
    simp only [applySecrets, List.mem_append] at hw
    rcases hw with hw | hw
    · exact create_or_update_secret_writes_no_delete f s (env i) w hw
    · exact ih (i + 1) w hw

/-! ## Configured-key collection and sync-pass characterization -/

theorem applyLabels_names (d : Bool) (env : Nat → LabelEnv) (i : Nat)
    (ls : List DeclLabel) :
    (applyLabels d env i ls).2.2.2 = declaredLabelNames ls := by
  induction ls generalizing i with
  | nil => rfl
  | cons l rest ih => simp [applyLabels, declaredLabelNames, ih (i + 1)]
    
theorem applyMilestones_titles (d : Bool) (env : Nat → MsEnv) (i : Nat)
    (ms : List DeclMilestone) :
    (applyMilestones d env i ms).2.2.2 = declaredMilestoneTitles ms := by
  induction ms generalizing i with
  | nil => rfl
  | cons m rest ih => simp [applyMilestones, declaredMilestoneTitles, ih (i + 1)]

theorem deleteLabelNames_cons_deleteLabel (n : String) (ws : List Write) :
    deleteLabelNames (Write.deleteLabel n :: ws) = n :: deleteLabelNames ws := rfl

theorem deleteLabelNames_cons_deleteMilestone (k : Nat) (t : String) (ws : List Write) :
    deleteLabelNames (Write.deleteMilestone k t :: ws) = deleteLabelNames ws := rfl

theorem deletedMilestoneTitles_cons_deleteMilestone (k : Nat) (t : String)
    (ws : List Write) :
    deletedMilestoneTitles (Write.deleteMilestone k t :: ws) =
      t :: deletedMilestoneTitles ws := rfl

theorem deletedMilestoneTitles_cons_deleteLabel (n : String) (ws : List Write) :
    deletedMilestoneTitles (Write.deleteLabel n :: ws) = deletedMilestoneTitles ws := rfl

theorem syncLabelsLoop_deleteNames (cfg : List String) (ok : Nat → Bool) (i : Nat)
    (all : List RemoteLabel) :
    deleteLabelNames (syncLabelsLoop false cfg ok i all).writes =
      (all.filter (fun r => r.name ∉ cfg)).map (fun r => r.name) := by
  induction all generalizing i with
  | nil => rfl
  | cons lab rest ih =>
    by_cases h : lab.name ∈ cfg
    · simp [syncLabelsLoop, h, ih (i + 1), List.filter_cons]
    · by_cases hok : ok i <;>
        simp [syncLabelsLoop, h, hok, ih (i + 1), List.filter_cons,
          deleteLabelNames_cons_deleteLabel]

theorem syncMilestonesLoop_deleteTitles (cfg : List String) (ok : Nat → Bool) (i : Nat)
    (all : List RemoteMilestone) :
    deletedMilestoneTitles (syncMilestonesLoop false cfg ok i all).writes =
      (all.filter (fun r => r.title ∉ cfg)).map (fun r => r.title) := by
  induction all generalizing i with
  | nil => rfl
  | cons ms rest ih =>
    by_cases h : ms.title ∈ cfg
    · simp [syncMilestonesLoop, h, ih (i + 1), List.filter_cons]
    · by_cases hok : ok i <;>
        simp [syncMilestonesLoop, h, hok, ih (i + 1), List.filter_cons,
          deletedMilestoneTitles_cons_deleteMilestone]

theorem syncLabelsLoop_no_ms_deletes (d : Bool) (cfg : List String) (ok : Nat → Bool)
    (i : Nat) (all : List RemoteLabel) :
    deletedMilestoneTitles (syncLabelsLoop d cfg ok i all).writes = [] := by
  induction all generalizing i with
  | nil => rfl
  | cons lab rest ih =>
    by_cases h : lab.name ∈ cfg
    · simp [syncLabelsLoop, h, ih (i + 1)]
    · cases d
      · by_cases hok : ok i <;>
          simp [syncLabelsLoop, h, hok, ih (i + 1),
            deletedMilestoneTitles_cons_deleteLabel]
      · simp [syncLabelsLoop, h, ih (i + 1)]

theorem syncMilestonesLoop_no_label_deletes (d : Bool) (cfg : List String)
    (ok : Nat → Bool) (i : Nat) (all : List RemoteMilestone) :
    deleteLabelNames (syncMilestonesLoop d cfg ok i all).writes = [] := by
  induction all generalizing i with
  | nil => rfl
  | cons ms rest ih =>
    by_cases h : ms.title ∈ cfg
    · simp [syncMilestonesLoop, h, ih (i + 1)]
    · cases d
      · by_cases hok : ok i <;>
          simp [syncMilestonesLoop, h, hok, ih (i + 1),
            deleteLabelNames_cons_deleteMilestone]
      · simp [syncMilestonesLoop, h, ih (i + 1)]

theorem syncLabelsLoop_deletes_not_configured (d : Bool) (cfg : List String)
    (ok : Nat → Bool) (i : Nat) (all : List RemoteLabel) (n : String)
    (hn : n ∈ deleteLabelNames (syncLabelsLoop d cfg ok i all).writes) : n ∉ cfg := by
  induction all generalizing i with
  | nil => simp [syncLabelsLoop, deleteLabelNames] at hn
  | cons lab rest ih =>
    rw [syncLabelsLoop] at hn
    by_cases h : lab.name ∈ cfg
    · simp only [h, if_true] at hn
      exact ih (i + 1) hn
    · simp only [h, if_false] at hn
      cases d with
      | true => exact ih (i + 1) (by simpa using hn)
      | false =>
        simp only [Bool.false_eq_true, if_false] at hn
        by_cases hok : ok i
        · simp only [hok, eq_self_iff_true, if_true] at hn
          rw [deleteLabelNames_cons_deleteLabel] at hn
          rcases List.mem_cons.mp hn with rfl | hn2
          · exact h
          · exact ih (i + 1) hn2
        · simp only [hok, Bool.false_eq_true, if_false] at hn
          rw [deleteLabelNames_cons_deleteLabel] at hn
          rcases List.mem_cons.mp hn with rfl | hn2
          · exact h
          · exact ih (i + 1) hn2

theorem syncMilestonesLoop_deletes_not_configured (d : Bool) (cfg : List String)
    (ok : Nat → Bool) (i : Nat) (all : List RemoteMilestone) (n : String)
    (hn : n ∈ deletedMilestoneTitles (syncMilestonesLoop d cfg ok i all).writes) :
    n ∉ cfg := by
  induction all generalizing i with
  | nil => simp [syncMilestonesLoop, deletedMilestoneTitles] at hn
  | cons ms rest ih =>
    rw [syncMilestonesLoop] at hn
    by_cases h : ms.title ∈ cfg
    · simp only [h, if_true] at hn
      exact ih (i + 1) hn
    · simp only [h, if_false] at hn
      cases d with
      | true => exact ih (i + 1) (by simpa using hn)
      | false =>
        simp only [Bool.false_eq_true, if_false] at hn
        by_cases hok : ok i
        · simp only [hok, eq_self_iff_true, if_true] at hn
          rw [deletedMilestoneTitles_cons_deleteMilestone] at hn
          rcases List.mem_cons.mp hn with rfl | hn2
          · exact h
          · exact ih (i + 1) hn2
        · simp only [hok, Bool.false_eq_true, if_false] at hn
          rw [deletedMilestoneTitles_cons_deleteMilestone] at hn
          rcases List.mem_cons.mp hn with rfl | hn2
          · exact h
          · exact ih (i + 1) hn2

theorem deleteLabelNames_append (a b : List Write) :
    deleteLabelNames (a ++ b) = deleteLabelNames a ++ deleteLabelNames b := by
  simp [deleteLabelNames]

theorem deletedMilestoneTitles_append (a b : List Write) :
    deletedMilestoneTitles (a ++ b) =
      deletedMilestoneTitles a ++ deletedMilestoneTitles b := by
  simp [deletedMilestoneTitles]

theorem sync_repository_milestones_no_label_deletes (d : Bool) (cfg : List String)
    (env : MsSyncEnv) :
    deleteLabelNames (sync_repository_milestones d cfg env).writes = [] := by
  unfold sync_repository_milestones
  cases env.allRes with
  | none => rfl
  | some all => exact syncMilestonesLoop_no_label_deletes d cfg env.deleteOk 0 all

theorem sync_repository_labels_no_ms_deletes (d : Bool) (cfg : List String)
    (env : LabelSyncEnv) :
    deletedMilestoneTitles (sync_repository_labels d cfg env).writes = [] := by
  unfold sync_repository_labels
  cases env.allRes with
  | none => rfl
  | some all => exact syncLabelsLoop_no_ms_deletes d cfg env.deleteOk 0 all

theorem sync_repository_labels_deletes_not_configured (d : Bool) (cfg : List String)
    (env : LabelSyncEnv) (n : String)
    (hn : n ∈ deleteLabelNames (sync_repository_labels d cfg env).writes) : n ∉ cfg := by
  unfold sync_repository_labels at hn
  cases henv : env.allRes with
  | none => rw [henv] at hn; simp [deleteLabelNames] at hn
  | some all =>
    rw [henv] at hn
    exact syncLabelsLoop_deletes_not_configured d cfg env.deleteOk 0 all n hn

theorem sync_repository_milestones_deletes_not_configured (d : Bool) (cfg : List String)
    (env : MsSyncEnv) (n : String)
    (hn : n ∈ deletedMilestoneTitles (sync_repository_milestones d cfg env).writes) :
    n ∉ cfg := by
  unfold sync_repository_milestones at hn
  cases henv : env.allRes with
  | none => rw [henv] at hn; simp [deletedMilestoneTitles] at hn
  | some all =>
    rw [henv] at hn
    exact syncMilestonesLoop_deletes_not_configured d cfg env.deleteOk 0 all n hn

/-- Only the label-sync segment of the per-repository pass can issue label
DELETEs, and its configured set is exactly the declared names. -/
theorem apply_deleteLabelNames_eq (flags : RunFlags) (config : Config) (env : RepoEnv) :
    deleteLabelNames (apply_config_to_repository flags config env).writes =
      deleteLabelNames
        (if flags.syncLabels ∧ config.labels.isSome then
          sync_repository_labels flags.dryRun
            (match config.labels with
             | some ls => declaredLabelNames ls
             | none => [])
            env.labSyncEnv
         else ⟨true, [], Stats.zero⟩).writes := by
  rcases config with ⟨cms, cls, css⟩
  unfold apply_config_to_repository
  dsimp only
  rw [deleteLabelNames_append, deleteLabelNames_append, deleteLabelNames_append,
    deleteLabelNames_append]
  have h1 : deleteLabelNames (match cms with
      | some ms => applyMilestones flags.dryRun env.msEnv 0 ms
      | none => (true, [], Stats.zero, [])).2.1 = [] := by
    cases cms with
    | none => rfl
    | some ms => exact (deleteNames_nil_of_no_delete _
        (applyMilestones_writes_no_delete flags.dryRun env.msEnv 0 ms)).1
  have h2 : deleteLabelNames (match cls with
      | some ls => applyLabels flags.dryRun env.labEnv 0 ls
      | none => (true, [], Stats.zero, [])).2.1 = [] := by
    cases cls with
    | none => rfl
    | some ls => exact (deleteNames_nil_of_no_delete _
        (applyLabels_writes_no_delete flags.dryRun env.labEnv 0 ls)).1
  have h3 : deleteLabelNames (match css with
      | some ss => applySecrets env.sealFn env.secEnv 0 ss
      | none => (true, [])).2 = [] := by
    cases css with
    | none => rfl
    | some ss => exact (deleteNames_nil_of_no_delete _
        (applySecrets_writes_no_delete env.sealFn env.secEnv 0 ss)).1
  have h4 : deleteLabelNames (if flags.syncMilestones ∧ cms.isSome then
      sync_repository_milestones flags.dryRun (match cms with
        | some ms => applyMilestones flags.dryRun env.msEnv 0 ms
        | none => (true, [], Stats.zero, [])).2.2.2 env.msSyncEnv
      else ⟨true, [], Stats.zero⟩).writes = [] := by
    split
    · exact sync_repository_milestones_no_label_deletes flags.dryRun _ env.msSyncEnv
    · rfl
  rw [h1, h2, h3, h4]
  simp only [List.nil_append]
  cases cls with
  | none => rfl
  | some ls => rw [applyLabels_names]

/-- Only the milestone-sync segment of the per-repository pass can issue
milestone DELETEs, and its configured set is exactly the declared titles. -/
theorem apply_deletedMilestoneTitles_eq (flags : RunFlags) (config : Config)
    (env : RepoEnv) :
    deletedMilestoneTitles (apply_config_to_repository flags config env).writes =
      deletedMilestoneTitles
        (if flags.syncMilestones ∧ config.milestones.isSome then
          sync_repository_milestones flags.dryRun
            (match config.milestones with
             | some ms => declaredMilestoneTitles ms
             | none => [])
            env.msSyncEnv
         else ⟨true, [], Stats.zero⟩).writes := by
  rcases config with ⟨cms, cls, css⟩
  unfold apply_config_to_repository
  dsimp only
  rw [deletedMilestoneTitles_append, deletedMilestoneTitles_append,
    deletedMilestoneTitles_append, deletedMilestoneTitles_append]
  have h1 : deletedMilestoneTitles (match cms with
      | some ms => applyMilestones flags.dryRun env.msEnv 0 ms
      | none => (true, [], Stats.zero, [])).2.1 = [] := by
    cases cms with
    | none => rfl
    | some ms => exact (deleteNames_nil_of_no_delete _
        (applyMilestones_writes_no_delete flags.dryRun env.msEnv 0 ms)).2
  have h2 : deletedMilestoneTitles (match cls with
      | some ls => applyLabels flags.dryRun env.labEnv 0 ls
      | none => (true, [], Stats.zero, [])).2.1 = [] := by
    cases cls with
    | none => rfl
    | some ls => exact (deleteNames_nil_of_no_delete _
        (applyLabels_writes_no_delete flags.dryRun env.labEnv 0 ls)).2
  have h3 : deletedMilestoneTitles (match css with
      | some ss => applySecrets env.sealFn env.secEnv 0 ss
      | none => (true, [])).2 = [] := by
    cases css with
    | none => rfl
    | some ss => exact (deleteNames_nil_of_no_delete _
        (applySecrets_writes_no_delete env.sealFn env.secEnv 0 ss)).2
  have h5 : deletedMilestoneTitles (if flags.syncLabels ∧ cls.isSome then
      sync_repository_labels flags.dryRun (match cls with
        | some ls => applyLabels flags.dryRun env.labEnv 0 ls
        | none => (true, [], Stats.zero, [])).2.2.2 env.labSyncEnv
      else ⟨true, [], Stats.zero⟩).writes = [] := by
    split
    · exact sync_repository_labels_no_ms_deletes flags.dryRun _ env.labSyncEnv
    · rfl
  rw [h1, h2, h3, h5]
  simp only [List.nil_append, List.append_nil]
  cases cms with
  | none => rfl
  | some ms => rw [applyMilestones_titles]

/-- Claim C8 theorem: with sync enabled for a declared kind, the remote items
whose key is absent from the declared set are exactly the ones DELETEd, each
exactly once (in remote-list order); with sync disabled for a kind, no DELETE
for that kind is ever issued. -/
theorem sync_deletes_exactly_undeclared (flags : RunFlags) (config : Config)
    (env : RepoEnv) (hdry : flags.dryRun = false) :
    (∀ ls remote, config.labels = some ls → flags.syncLabels = true →
      env.labSyncEnv.allRes = some remote →
      deleteLabelNames (apply_config_to_repository flags config env).writes =
        (remote.filter (fun r => r.name ∉ declaredLabelNames ls)).map
          (fun r => r.name)) ∧
    (flags.syncLabels = false →
      deleteLabelNames (apply_config_to_repository flags config env).writes = []) ∧
    (∀ ms remote, config.milestones = some ms → flags.syncMilestones = true →
      env.msSyncEnv.allRes = some remote →
      deletedMilestoneTitles (apply_config_to_repository flags config env).writes =
        (remote.filter (fun r => r.title ∉ declaredMilestoneTitles ms)).map
          (fun r => r.title)) ∧
    (flags.syncMilestones = false →
      deletedMilestoneTitles (apply_config_to_repository flags config env).writes = []) := by
  refine ⟨?_, ?_, ?_, ?_⟩
  · intro ls remote hls hsl hall
    rw [apply_deleteLabelNames_eq, hls, hdry]
    rw [if_pos ⟨hsl, rfl⟩]
    unfold sync_repository_labels
    rw [hall]
    exact syncLabelsLoop_deleteNames (declaredLabelNames ls)
      env.labSyncEnv.deleteOk 0 remote
  · intro hsl
    have hc : ¬(flags.syncLabels = true ∧ config.labels.isSome = true) := by
      rintro ⟨h1, _⟩
      rw [hsl] at h1
      exact Bool.false_ne_true h1
    rw [apply_deleteLabelNames_eq, if_neg hc]
    rfl
  · intro ms remote hms hsm hall
    rw [apply_deletedMilestoneTitles_eq, hms, hdry]
    rw [if_pos ⟨hsm, rfl⟩]
    unfold sync_repository_milestones
    rw [hall]
    exact syncMilestonesLoop_deleteTitles (declaredMilestoneTitles ms)
      env.msSyncEnv.deleteOk 0 remote
  · intro hsm
    have hc : ¬(flags.syncMilestones = true ∧ config.milestones.isSome = true) := by
      rintro ⟨h1, _⟩
      rw [hsm] at h1
      exact Bool.false_ne_true h1
    rw [apply_deletedMilestoneTitles_eq, if_neg hc]
    rfl

/-- Claim C8 witness: with both syncs enabled, exactly the undeclared remote
label "wontfix" and the undeclared remote milestone "old" are deleted. -/
theorem sync_deletes_exactly_undeclared_witness :
    deleteLabelNames (apply_config_to_repository ⟨false, true, true⟩ syncSampleConfig
        syncSampleEnv).writes = ["wontfix"] ∧
    deletedMilestoneTitles (apply_config_to_repository ⟨false, true, true⟩
        syncSampleConfig syncSampleEnv).writes = ["old"] := by
  have h := sync_deletes_exactly_undeclared ⟨false, true, true⟩ syncSampleConfig
    syncSampleEnv rfl
  constructor
  · rw [h.1 [⟨some "bug", some "d73a4a", some ""⟩]
      [⟨"bug", "d73a4a", some ""⟩, ⟨"wontfix", "ffffff", none⟩] rfl rfl rfl]
    rfl
  · rw [h.2.2.1 [⟨some "v1", none, none, .absent⟩] [⟨"v1", 1⟩, ⟨"old", 2⟩] rfl rfl rfl]
    rfl

/-- Claim C9 theorem: a sync pass never deletes a declared item, whatever the
per-item environments did (including failed create/update attempts), because
apply_config_to_repository appends every declared key to the configured list
unconditionally and the sync loops only delete keys outside that list. -/
theorem sync_never_deletes_declared (flags : RunFlags) (config : Config)
    (env : RepoEnv) :
    (∀ ls, config.labels = some ls → ∀ l ∈ ls,
      (l.name.getD "") ∉
        deleteLabelNames (apply_config_to_repository flags config env).writes) ∧
    (∀ ms, config.milestones = some ms → ∀ m ∈ ms,
      (m.title.getD "") ∉
        deletedMilestoneTitles (apply_config_to_repository flags config env).writes) := by
  constructor
  · intro ls hls l hl hmem
    rw [apply_deleteLabelNames_eq, hls] at hmem
    revert hmem
    split
    · intro hmem
      exact sync_repository_labels_deletes_not_configured _ _ _ _ hmem
        (List.mem_map_of_mem _ hl)
    · intro hmem
      simp [deleteLabelNames] at hmem
  · intro ms hms m hm hmem
    rw [apply_deletedMilestoneTitles_eq, hms] at hmem
    revert hmem
    split
    · intro hmem
      exact sync_repository_milestones_deletes_not_configured _ _ _ _ hmem
        (List.mem_map_of_mem _ hm)
    · intro hmem
      simp [deletedMilestoneTitles] at hmem

/-- Claim C9 witness: the declared label "bug" and milestone "v1" are never
deleted in the concrete sync scenario. -/
theorem sync_never_deletes_declared_witness :
    "bug" ∉ deleteLabelNames (apply_config_to_repository ⟨false, true, true⟩
        syncSampleConfig syncSampleEnv).writes ∧
    "v1" ∉ deletedMilestoneTitles (apply_config_to_repository ⟨false, true, true⟩
        syncSampleConfig syncSampleEnv).writes := by
  have h := sync_never_deletes_declared ⟨false, true, true⟩ syncSampleConfig syncSampleEnv
  exact ⟨h.1 [⟨some "bug", some "d73a4a", some ""⟩] rfl ⟨some "bug", some "d73a4a", some ""⟩
      (by simp),
    h.2 [⟨some "v1", none, none, .absent⟩] rfl ⟨some "v1", none, none, .absent⟩ (by simp)⟩

/-! ## Validation -/

theorem validateMilestones_ok_iff (ms : List DeclMilestone) :
    validateMilestones ms = .ok () ↔ ∀ m ∈ ms, m.title.isSome = true := by
  induction ms with
  | nil => simp [validateMilestones]
  | cons m rest ih =>
    cases hm : m.title with
    | none => simp [validateMilestones, hm]
    | some t => simp [validateMilestones, hm, ih]

theorem validateLabels_ok_iff (ls : List DeclLabel) :
    validateLabels ls = .ok () ↔
      ∀ l ∈ ls, l.name.isSome = true ∧ l.color.isSome = true := by
  induction ls with
  | nil => simp [validateLabels]
  | cons l rest ih =>
    cases hn : l.name with
    | none => simp [validateLabels, hn]
    | some n =>
      cases hc : l.color with
      | none => simp [validateLabels, hn, hc]
      | some c => simp [validateLabels, hn, hc, ih]

theorem validate_config_ok_parts (c : Config) (h : validate_config c = .ok ()) :
    (∀ ms, c.milestones = some ms → validateMilestones ms = .ok ()) ∧
    (∀ ls, c.labels = some ls → validateLabels ls = .ok ()) := by
  unfold validate_config at h
  constructor
  · intro ms hms
    rw [hms] at h
    dsimp only at h
    cases hv : validateMilestones ms with
    | error e => rw [hv] at h; exact h
    | ok u => rfl
  · intro ls hls
    rw [hls] at h
    cases hm : (match c.milestones with
        | some ms => validateMilestones ms
        | none => .ok ()) with
    | error e => rw [hm] at h; exact absurd h (by simp)
    | ok u => rw [hm] at h; exact h

/-- Claim C5 amended theorem: configuration loading raises a validation error
before any reconciliation for a milestone missing title and for a label
missing name or color; secrets are never validated — validate_config is
independent of the secrets section, and a secret missing name or value
surfaces only as a per-item failure inside create_or_update_secret (a caught
KeyError, no write issued). -/
theorem validate_config_required_fields (c : Config) :
    (∀ ms m, c.milestones = some ms → m ∈ ms → m.title = none →
      validate_config c ≠ .ok ()) ∧
    (∀ ls l, c.labels = some ls → l ∈ ls → (l.name = none ∨ l.color = none) →
      validate_config c ≠ .ok ()) ∧
    validate_config c = validate_config { c with secrets := none } ∧
    (∀ f s env, s.name = none ∨ s.value = none →
      create_or_update_secret f s env = ⟨false, [], Stats.zero, none⟩) := by
  refine ⟨?_, ?_, ?_, ?_⟩
  · intro ms m hms hm hnone hok
    have hv := (validate_config_ok_parts c hok).1 ms hms
    have := (validateMilestones_ok_iff ms).mp hv m hm
    rw [hnone] at this
    simp at this
  · intro ls l hls hl hmiss hok
    have hv := (validate_config_ok_parts c hok).2 ls hls
    have := (validateLabels_ok_iff ls).mp hv l hl
    rcases hmiss with h | h <;> rw [h] at this <;> simp at this
  · rcases c with ⟨cms, cls, css⟩
    rfl
  · intro f s env h
    rcases s with ⟨sn, sv⟩
    rcases h with rfl | rfl
    · rfl
    · cases sn <;> rfl

/-- Claim C5 witness: a milestone without a title is rejected by validation. -/
theorem validate_config_required_fields_witness :
    validate_config ⟨some [⟨none, none, none, .absent⟩], none, none⟩ ≠ .ok () :=
  (validate_config_required_fields ⟨some [⟨none, none, none, .absent⟩], none, none⟩).1
    [⟨none, none, none, .absent⟩] ⟨none, none, none, .absent⟩ rfl (by simp) rfl

/-- Claim C5 counterexample: a secret missing both name and value passes
validation untouched (no error before reconciliation), and the failure only
appears when the secret reconciler runs and returns False with no write. -/
theorem validate_config_ignores_secrets_cex :
    validate_config ⟨none, some [⟨some "bug", some "d73a4a", none⟩],
      some [⟨none, none⟩]⟩ = .ok () ∧
    create_or_update_secret (fun _ _ => "E") ⟨none, none⟩ ⟨some ("K", "1"), true⟩ =
      ⟨false, [], Stats.zero, none⟩ :=
  ⟨rfl, rfl⟩

/-! ## Basic facts about the date parsers -/

theorem digitVal_digitChar (k : Nat) (hk : k < 10) :
    digitVal (digitChar k) = some k := by
  interval_cases k <;> rfl

theorem isWs_digitChar (k : Nat) (hk : k < 10) : isWsChar (digitChar k) = false := by
  interval_cases k <;> rfl

theorem digitChar_ne (k : Nat) (hk : k < 10) (c : Char) (hc : digitVal c = none) :
    digitChar k ≠ c := by
  intro h
  have hd := digitVal_digitChar k hk
  rw [h, hc] at hd
  exact Option.noConfusion hd

theorem parseY_render4 (y : Nat) (hy : y ≤ 9999) (rest : List Char) :
    parseY (render4 y ++ rest) = some (y, rest) := by
  have h1 : y / 1000 % 10 < 10 := Nat.mod_lt _ (by norm_num)
  have h2 : y / 100 % 10 < 10 := Nat.mod_lt _ (by norm_num)
  have h3 : y / 10 % 10 < 10 := Nat.mod_lt _ (by norm_num)
  have h4 : y % 10 < 10 := Nat.mod_lt _ (by norm_num)
  simp only [render4, List.cons_append, List.nil_append, parseY,
    digitVal_digitChar _ h1, digitVal_digitChar _ h2, digitVal_digitChar _ h3,
    digitVal_digitChar _ h4, Option.some.injEq, Prod.mk.injEq]
  first
    | omega
    | exact ⟨by omega, trivial⟩

theorem parseY_render4_nil (y : Nat) (hy : y ≤ 9999) :
    parseY (render4 y) = some (y, []) := by
  have := parseY_render4 y hy []
  rwa [List.append_nil] at this

theorem parseY_fail_third (k1 k2 : Nat) (hk1 : k1 < 10) (hk2 : k2 < 10) (c : Char)
    (hc : digitVal c = none) (rest : List Char) :
    parseY (digitChar k1 :: digitChar k2 :: c :: rest) = none := by
  cases rest with
  | nil => rfl
  | cons x xs =>
    simp [parseY, digitVal_digitChar _ hk1, digitVal_digitChar _ hk2, hc]

theorem lit_self (c : Char) (rest : List Char) : lit c (c :: rest) = some rest := by
  simp [lit]

theorem lit_ne (c x : Char) (h : x ≠ c) (rest : List Char) :
    lit c (x :: rest) = none := by
  simp [lit, h]

theorem runCands_head_some {α : Type} (v : Nat) (r : List Char)
    (t : List (Nat × List Char)) (k : Nat → List Char → Option α) (x : α)
    (h : k v r = some x) : runCands ((v, r) :: t) k = some x := by
  simp [runCands, h]

theorem runCands_head_none {α : Type} (v : Nat) (r : List Char)
    (t : List (Nat × List Char)) (k : Nat → List Char → Option α)
    (h : k v r = none) : runCands ((v, r) :: t) k = runCands t k := by
  simp [runCands, h]

theorem parseM_render2 (m : Nat) (h1 : 1 ≤ m) (h2 : m ≤ 12) (rest : List Char) :
    ∃ t, parseM (render2 m ++ rest) = (m, rest) :: t := by
  interval_cases m <;> exact ⟨_, rfl⟩

theorem parseD_cands_lo (d : Nat) (h1 : 1 ≤ d) (h2 : d ≤ 9) (rest : List Char) :
    parseD (render2 d ++ rest) = [(d, rest)] := by
  interval_cases d <;> rfl

theorem parseD_cands_mid (d : Nat) (h1 : 10 ≤ d) (h2 : d ≤ 29) (rest : List Char) :
    parseD (render2 d ++ rest) = [(d, rest), (d / 10, digitChar (d % 10) :: rest)] := by
  interval_cases d <;> rfl

theorem parseD_cands_hi (d : Nat) (h1 : 30 ≤ d) (h2 : d ≤ 31) (rest : List Char) :
    parseD (render2 d ++ rest) = [(d, rest), (3, digitChar (d % 10) :: rest)] := by
  interval_cases d <;> rfl

theorem parseD_render2 (d : Nat) (h1 : 1 ≤ d) (h2 : d ≤ 31) (rest : List Char) :
    ∃ t, parseD (render2 d ++ rest) = (d, rest) :: t := by
  rcases Nat.lt_or_ge d 10 with h | h
  · exact ⟨_, parseD_cands_lo d h1 (by omega) rest⟩
  · rcases Nat.lt_or_ge d 30 with h' | h'
    · exact ⟨_, parseD_cands_mid d h (by omega) rest⟩
    · exact ⟨_, parseD_cands_hi d h' h2 rest⟩

theorem parseWs_space (r : List Char) : parseWs (' ' :: r) = some (dropWsChars r) := rfl

theorem parseWs_digit (k : Nat) (hk : k < 10) (r : List Char) :
    parseWs (digitChar k :: r) = none := by
  interval_cases k <;> rfl

theorem dropWs_digits2 (d : Nat) (r : List Char) :
    dropWsChars (render2 d ++ r) = render2 d ++ r := by
  have h : d / 10 % 10 < 10 := Nat.mod_lt _ (by norm_num)
  simp [dropWsChars, render2, List.dropWhile, isWs_digitChar _ h]

theorem dropWs_render4 (y : Nat) :
    dropWsChars (render4 y) = render4 y := by
  have h : y / 1000 % 10 < 10 := Nat.mod_lt _ (by norm_num)
  simp [dropWsChars, render4, List.dropWhile, isWs_digitChar _ h]

theorem parseMonAbbr_digit (k : Nat) (hk : k < 10) (rest : List Char) :
    parseMon monthAbbrevs (digitChar k :: rest) = [] := by
  interval_cases k <;> rfl

theorem parseMonFull_digit (k : Nat) (hk : k < 10) (rest : List Char) :
    parseMon monthFulls (digitChar k :: rest) = [] := by
  interval_cases k <;> rfl

theorem daysInMonth_le (y m : Nat) : daysInMonth y m ≤ 31 := by
  unfold daysInMonth
  split
  · split <;> norm_num
  · split <;> norm_num

theorem tryFormats_cons_none (f : List Char → Option (Nat × Nat × Nat))
    (fs : List (List Char → Option (Nat × Nat × Nat))) (s : List Char)
    (h : f s = none) : tryFormats (f :: fs) s = tryFormats fs s := by
  simp [tryFormats, h]

theorem tryFormats_cons_some (f : List Char → Option (Nat × Nat × Nat))
    (fs : List (List Char → Option (Nat × Nat × Nat))) (s : List Char)
    (y m d : Nat) (h : f s = some (y, m, d)) (hv : validYmd y m d = true) :
    tryFormats (f :: fs) s = some (y, m, d) := by
  simp [tryFormats, h, hv]

theorem formatDueDateChars_of (cs : List Char) (h : cs ≠ []) (y m d : Nat)
    (ht : tryFormats dateFormats cs = some (y, m, d)) :
    formatDueDateChars cs = .ok (some (isoOfYmd y m d)) := by
  unfold formatDueDateChars
  rw [if_neg h, ht]

/-! ## Per-format behavior on the eight renderings -/

theorem parseYmd_render_ok (sep : Char) (y m d : Nat) (hy : y ≤ 9999)
    (hm1 : 1 ≤ m) (hm2 : m ≤ 12) (hd1 : 1 ≤ d) (hd2 : d ≤ 31) :
    parseYmd sep (renderYmdSep sep y m d) = some (y, m, d) := by
  unfold parseYmd renderYmdSep
  rw [parseY_render4 y hy]
  dsimp only
  rw [lit_self]
  dsimp only
  obtain ⟨t, ht⟩ := parseM_render2 m hm1 hm2 (sep :: render2 d)
  rw [ht]
  apply runCands_head_some
  dsimp only
  rw [lit_self]
  dsimp only
  obtain ⟨t2, ht2⟩ := parseD_render2 d hd1 hd2 []
  rw [List.append_nil] at ht2
  rw [ht2]
  apply runCands_head_some
  rfl

theorem parseYmd_fail_cross (y m d : Nat) (hy : y ≤ 9999) :
    parseYmd '-' (renderYmdSep '/' y m d) = none := by
  unfold parseYmd renderYmdSep
  rw [parseY_render4 y hy]
  dsimp only
  rw [lit_ne _ _ (by decide)]

theorem parseYmd_fail_dmy (sepF sepR : Char) (hs : digitVal sepR = none) (y m d : Nat) :
    parseYmd sepF (renderDmySep sepR y m d) = none := by
  unfold parseYmd renderDmySep
  have h1 : d / 10 % 10 < 10 := Nat.mod_lt _ (by norm_num)
  have h2 : d % 10 < 10 := Nat.mod_lt _ (by norm_num)
  rw [show render2 d ++ sepR :: (render2 m ++ sepR :: render4 y) =
      digitChar (d / 10 % 10) :: digitChar (d % 10) ::
        sepR :: (render2 m ++ sepR :: render4 y) from rfl]
  rw [parseY_fail_third _ _ h1 h2 sepR hs]

theorem parseDmy_render_ok (sep : Char) (y m d : Nat) (hy : y ≤ 9999)
    (hm1 : 1 ≤ m) (hm2 : m ≤ 12) (hd1 : 1 ≤ d) (hd2 : d ≤ 31) :
    parseDmy sep (renderDmySep sep y m d) = some (y, m, d) := by
  unfold parseDmy renderDmySep
  obtain ⟨t, ht⟩ := parseD_render2 d hd1 hd2 (sep :: (render2 m ++ sep :: render4 y))
  rw [ht]
  apply runCands_head_some
  dsimp only
  rw [lit_self]
  dsimp only
  obtain ⟨t2, ht2⟩ := parseM_render2 m hm1 hm2 (sep :: render4 y)
  rw [ht2]
  apply runCands_head_some
  dsimp only
  rw [lit_self]
  dsimp only
  rw [parseY_render4_nil y hy]
  rfl

theorem parseDmy_fail_nonsep (sepF : Char) (hsF : digitVal sepF = none) (d : Nat)
    (hd1 : 1 ≤ d) (hd2 : d ≤ 31) (c : Char) (hc : c ≠ sepF) (rest : List Char) :
    parseDmy sepF (render2 d ++ c :: rest) = none := by
  unfold parseDmy
  have hmod : d % 10 < 10 := Nat.mod_lt _ (by norm_num)
  rcases Nat.lt_or_ge d 10 with h | h
  · rw [parseD_cands_lo d hd1 (by omega)]
    rw [runCands_head_none _ _ _ _ (by (try dsimp only); rw [lit_ne _ _ hc])]
    rfl
  · rcases Nat.lt_or_ge d 30 with h' | h'
    · rw [parseD_cands_mid d h (by omega)]
      rw [runCands_head_none _ _ _ _ (by (try dsimp only); rw [lit_ne _ _ hc])]
      rw [runCands_head_none _ _ _ _
        (by (try dsimp only); rw [lit_ne _ _ (digitChar_ne _ hmod sepF hsF)])]
      rfl
    · rw [parseD_cands_hi d h' hd2]
      rw [runCands_head_none _ _ _ _ (by (try dsimp only); rw [lit_ne _ _ hc])]
      rw [runCands_head_none _ _ _ _
        (by (try dsimp only); rw [lit_ne _ _ (digitChar_ne _ hmod sepF hsF)])]
      rfl

theorem parseYmd_fail_mon (sep : Char) (nameF : Nat → List Char)
    (hname : nameF = monthAbbrCap ∨ nameF = monthFullCap) (y m d : Nat)
    (hm1 : 1 ≤ m) (hm2 : m ≤ 12) :
    parseYmd sep (renderMonDY nameF y m d) = none := by
  rcases hname with rfl | rfl <;> interval_cases m <;> rfl

theorem parseDmy_fail_mon (sep : Char) (nameF : Nat → List Char)
    (hname : nameF = monthAbbrCap ∨ nameF = monthFullCap) (y m d : Nat)
    (hm1 : 1 ≤ m) (hm2 : m ≤ 12) :
    parseDmy sep (renderMonDY nameF y m d) = none := by
  rcases hname with rfl | rfl <;> interval_cases m <;> rfl

theorem parseMonDY_abbr_ok (y m d : Nat) (hy : y ≤ 9999) (hm1 : 1 ≤ m) (hm2 : m ≤ 12)
    (hd1 : 1 ≤ d) (hd2 : d ≤ 31) :
    parseMonDY monthAbbrevs (renderMonDY monthAbbrCap y m d) = some (y, m, d) := by
  have hmon : parseMon monthAbbrevs
      (monthAbbrCap m ++ ' ' :: (render2 d ++ ',' :: ' ' :: render4 y)) =
      [(m, ' ' :: (render2 d ++ ',' :: ' ' :: render4 y))] := by
    interval_cases m <;> rfl
  unfold parseMonDY renderMonDY
  rw [hmon]
  apply runCands_head_some
  dsimp only
  rw [parseWs_space, dropWs_digits2]
  dsimp only
  obtain ⟨t, ht⟩ := parseD_render2 d hd1 hd2 (',' :: ' ' :: render4 y)
  rw [ht]
  apply runCands_head_some
  dsimp only
  rw [lit_self]
  dsimp only
  rw [parseWs_space, dropWs_render4]
  dsimp only
  rw [parseY_render4_nil y hy]
  rfl

theorem parseMonDY_full_ok (y m d : Nat) (hy : y ≤ 9999) (hm1 : 1 ≤ m) (hm2 : m ≤ 12)
    (hd1 : 1 ≤ d) (hd2 : d ≤ 31) :
    parseMonDY monthFulls (renderMonDY monthFullCap y m d) = some (y, m, d) := by
  have hmon : parseMon monthFulls
      (monthFullCap m ++ ' ' :: (render2 d ++ ',' :: ' ' :: render4 y)) =
      [(m, ' ' :: (render2 d ++ ',' :: ' ' :: render4 y))] := by
    interval_cases m <;> rfl
  unfold parseMonDY renderMonDY
  rw [hmon]
  apply runCands_head_some
  dsimp only
  rw [parseWs_space, dropWs_digits2]
  dsimp only
  obtain ⟨t, ht⟩ := parseD_render2 d hd1 hd2 (',' :: ' ' :: render4 y)
  rw [ht]
  apply runCands_head_some
  dsimp only
  rw [lit_self]
  dsimp only
  rw [parseWs_space, dropWs_render4]
  dsimp only
  rw [parseY_render4_nil y hy]
  rfl

theorem parseMonDY_abbr_fail_full (y m d : Nat) (hm1 : 1 ≤ m) (hm2 : m ≤ 12)
    (hm5 : m ≠ 5) :
    parseMonDY monthAbbrevs (renderMonDY monthFullCap y m d) = none := by
  interval_cases m <;>
    first
      | exact absurd rfl hm5
      | rfl

theorem parseMonDY_abbr_fail_dmon (nameF : Nat → List Char) (y m d : Nat) :
    parseMonDY monthAbbrevs (renderDMonY nameF y m d) = none := by
  unfold parseMonDY renderDMonY
  have h1 : d / 10 % 10 < 10 := Nat.mod_lt _ (by norm_num)
  rw [show render2 d ++ ' ' :: (nameF m ++ ' ' :: render4 y) =
      digitChar (d / 10 % 10) ::
        (digitChar (d % 10) :: ' ' :: (nameF m ++ ' ' :: render4 y)) from rfl]
  rw [parseMonAbbr_digit _ h1]
  rfl

theorem parseMonDY_full_fail_dmon (nameF : Nat → List Char) (y m d : Nat) :
    parseMonDY monthFulls (renderDMonY nameF y m d) = none := by
  unfold parseMonDY renderDMonY
  have h1 : d / 10 % 10 < 10 := Nat.mod_lt _ (by norm_num)
  rw [show render2 d ++ ' ' :: (nameF m ++ ' ' :: render4 y) =
      digitChar (d / 10 % 10) ::
        (digitChar (d % 10) :: ' ' :: (nameF m ++ ' ' :: render4 y)) from rfl]
  rw [parseMonFull_digit _ h1]
  rfl

theorem parseYmd_fail_dmon (sep : Char) (nameF : Nat → List Char) (y m d : Nat) :
    parseYmd sep (renderDMonY nameF y m d) = none := by
  unfold parseYmd renderDMonY
  have h1 : d / 10 % 10 < 10 := Nat.mod_lt _ (by norm_num)
  have h2 : d % 10 < 10 := Nat.mod_lt _ (by norm_num)
  rw [show render2 d ++ ' ' :: (nameF m ++ ' ' :: render4 y) =
      digitChar (d / 10 % 10) :: digitChar (d % 10) ::
        ' ' :: (nameF m ++ ' ' :: render4 y) from rfl]
  rw [parseY_fail_third _ _ h1 h2 ' ' rfl]

theorem parseDMonY_abbr_ok (y m d : Nat) (hy : y ≤ 9999) (hm1 : 1 ≤ m) (hm2 : m ≤ 12)
    (hd1 : 1 ≤ d) (hd2 : d ≤ 31) :
    parseDMonY monthAbbrevs (renderDMonY monthAbbrCap y m d) = some (y, m, d) := by
  have hdrop : dropWsChars (monthAbbrCap m ++ ' ' :: render4 y) =
      monthAbbrCap m ++ ' ' :: render4 y := by
    interval_cases m <;> rfl
  have hmon : parseMon monthAbbrevs (monthAbbrCap m ++ ' ' :: render4 y) =
      [(m, ' ' :: render4 y)] := by
    interval_cases m <;> rfl
  unfold parseDMonY renderDMonY
  obtain ⟨t, ht⟩ := parseD_render2 d hd1 hd2 (' ' :: (monthAbbrCap m ++ ' ' :: render4 y))
  rw [ht]
  apply runCands_head_some
  dsimp only
  rw [parseWs_space, hdrop]
  dsimp only
  rw [hmon]
  apply runCands_head_some
  dsimp only
  rw [parseWs_space, dropWs_render4]
  dsimp only
  rw [parseY_render4_nil y hy]
  rfl

theorem parseDMonY_full_ok (y m d : Nat) (hy : y ≤ 9999) (hm1 : 1 ≤ m) (hm2 : m ≤ 12)
    (hd1 : 1 ≤ d) (hd2 : d ≤ 31) :
    parseDMonY monthFulls (renderDMonY monthFullCap y m d) = some (y, m, d) := by
  have hdrop : dropWsChars (monthFullCap m ++ ' ' :: render4 y) =
      monthFullCap m ++ ' ' :: render4 y := by
    interval_cases m <;> rfl
  have hmon : parseMon monthFulls (monthFullCap m ++ ' ' :: render4 y) =
      [(m, ' ' :: render4 y)] := by
    interval_cases m <;> rfl
  unfold parseDMonY renderDMonY
  obtain ⟨t, ht⟩ := parseD_render2 d hd1 hd2 (' ' :: (monthFullCap m ++ ' ' :: render4 y))
  rw [ht]
  apply runCands_head_some
  dsimp only
  rw [parseWs_space, hdrop]
  dsimp only
  rw [hmon]
  apply runCands_head_some
  dsimp only
  rw [parseWs_space, dropWs_render4]
  dsimp only
  rw [parseY_render4_nil y hy]
  rfl

theorem parseDMonY_abbr_fail_full (y m d : Nat) (hm1 : 1 ≤ m) (hm2 : m ≤ 12)
    (hm5 : m ≠ 5) (hd1 : 1 ≤ d) (hd2 : d ≤ 31) :
    parseDMonY monthAbbrevs (renderDMonY monthFullCap y m d) = none := by
  have hmod : d % 10 < 10 := Nat.mod_lt _ (by norm_num)
  interval_cases m <;>
    first
      | exact absurd rfl hm5
      | (unfold parseDMonY renderDMonY
         rcases Nat.lt_or_ge d 10 with h | h
         · rw [parseD_cands_lo d hd1 (by omega)]
           rw [runCands_head_none _ _ _ _ (by rfl)]
           rfl
         · rcases Nat.lt_or_ge d 30 with h' | h'
           · rw [parseD_cands_mid d h (by omega)]
             rw [runCands_head_none _ _ _ _ (by rfl)]
             rw [runCands_head_none _ _ _ _
               (by (try dsimp only); rw [parseWs_digit _ hmod])]
             rfl
           · rw [parseD_cands_hi d h' hd2]
             rw [runCands_head_none _ _ _ _ (by rfl)]
             rw [runCands_head_none _ _ _ _
               (by (try dsimp only); rw [parseWs_digit _ hmod])]
             rfl)

/-! ## The eight renderings all normalize through format_due_date -/

theorem renderYmdSep_ne_nil (sep : Char) (y m d : Nat) : renderYmdSep sep y m d ≠ [] := by
  simp [renderYmdSep, render4]

theorem renderDmySep_ne_nil (sep : Char) (y m d : Nat) : renderDmySep sep y m d ≠ [] := by
  simp [renderDmySep, render2]

theorem renderMonDY_ne_nil (nameF : Nat → List Char) (y m d : Nat) :
    renderMonDY nameF y m d ≠ [] := by
  simp [renderMonDY]

theorem renderDMonY_ne_nil (nameF : Nat → List Char) (y m d : Nat) :
    renderDMonY nameF y m d ≠ [] := by
  simp [renderDMonY, render2]

theorem fddChars_r1 (y m d : Nat) (hy : y ≤ 9999) (hm1 : 1 ≤ m) (hm2 : m ≤ 12)
    (hd1 : 1 ≤ d) (hd31 : d ≤ 31) (hv : validYmd y m d = true) :
    formatDueDateChars (renderYmdSep '-' y m d) = .ok (some (isoOfYmd y m d)) := by
  apply formatDueDateChars_of _ (renderYmdSep_ne_nil '-' y m d) y m d
  unfold dateFormats
  exact tryFormats_cons_some _ _ _ y m d
    (parseYmd_render_ok '-' y m d hy hm1 hm2 hd1 hd31) hv

theorem fddChars_r2 (y m d : Nat) (hy : y ≤ 9999) (hm1 : 1 ≤ m) (hm2 : m ≤ 12)
    (hd1 : 1 ≤ d) (hd31 : d ≤ 31) (hv : validYmd y m d = true) :
    formatDueDateChars (renderYmdSep '/' y m d) = .ok (some (isoOfYmd y m d)) := by
  apply formatDueDateChars_of _ (renderYmdSep_ne_nil '/' y m d) y m d
  unfold dateFormats
  rw [tryFormats_cons_none _ _ _ (parseYmd_fail_cross y m d hy)]
  exact tryFormats_cons_some _ _ _ y m d
    (parseYmd_render_ok '/' y m d hy hm1 hm2 hd1 hd31) hv

theorem fddChars_r3 (y m d : Nat) (hy : y ≤ 9999) (hm1 : 1 ≤ m) (hm2 : m ≤ 12)
    (hd1 : 1 ≤ d) (hd31 : d ≤ 31) (hv : validYmd y m d = true) :
    formatDueDateChars (renderDmySep '-' y m d) = .ok (some (isoOfYmd y m d)) := by
  apply formatDueDateChars_of _ (renderDmySep_ne_nil '-' y m d) y m d
  unfold dateFormats
  rw [tryFormats_cons_none _ _ _ (parseYmd_fail_dmy '-' '-' rfl y m d),
      tryFormats_cons_none _ _ _ (parseYmd_fail_dmy '/' '-' rfl y m d)]
  exact tryFormats_cons_some _ _ _ y m d
    (parseDmy_render_ok '-' y m d hy hm1 hm2 hd1 hd31) hv

theorem fddChars_r4 (y m d : Nat) (hy : y ≤ 9999) (hm1 : 1 ≤ m) (hm2 : m ≤ 12)
    (hd1 : 1 ≤ d) (hd31 : d ≤ 31) (hv : validYmd y m d = true) :
    formatDueDateChars (renderDmySep '/' y m d) = .ok (some (isoOfYmd y m d)) := by
  apply formatDueDateChars_of _ (renderDmySep_ne_nil '/' y m d) y m d
  unfold dateFormats
  have f3 : parseDmy '-' (renderDmySep '/' y m d) = none :=
    parseDmy_fail_nonsep '-' rfl d hd1 hd31 '/' (by decide)
      (render2 m ++ '/' :: render4 y)
  rw [tryFormats_cons_none _ _ _ (parseYmd_fail_dmy '-' '/' rfl y m d),
      tryFormats_cons_none _ _ _ (parseYmd_fail_dmy '/' '/' rfl y m d),
      tryFormats_cons_none _ _ _ f3]
  exact tryFormats_cons_some _ _ _ y m d
    (parseDmy_render_ok '/' y m d hy hm1 hm2 hd1 hd31) hv

theorem fddChars_r5 (y m d : Nat) (hy : y ≤ 9999) (hm1 : 1 ≤ m) (hm2 : m ≤ 12)
    (hd1 : 1 ≤ d) (hd31 : d ≤ 31) (hv : validYmd y m d = true) :
    formatDueDateChars (renderMonDY monthAbbrCap y m d) =
      .ok (some (isoOfYmd y m d)) := by
  apply formatDueDateChars_of _ (renderMonDY_ne_nil monthAbbrCap y m d) y m d
  unfold dateFormats
  rw [tryFormats_cons_none _ _ _
        (parseYmd_fail_mon '-' monthAbbrCap (Or.inl rfl) y m d hm1 hm2),
      tryFormats_cons_none _ _ _
        (parseYmd_fail_mon '/' monthAbbrCap (Or.inl rfl) y m d hm1 hm2),
      tryFormats_cons_none _ _ _
        (parseDmy_fail_mon '-' monthAbbrCap (Or.inl rfl) y m d hm1 hm2),
      tryFormats_cons_none _ _ _
        (parseDmy_fail_mon '/' monthAbbrCap (Or.inl rfl) y m d hm1 hm2)]
  exact tryFormats_cons_some _ _ _ y m d
    (parseMonDY_abbr_ok y m d hy hm1 hm2 hd1 hd31) hv

theorem fddChars_r6 (y m d : Nat) (hy : y ≤ 9999) (hm1 : 1 ≤ m) (hm2 : m ≤ 12)
    (hd1 : 1 ≤ d) (hd31 : d ≤ 31) (hv : validYmd y m d = true) :
    formatDueDateChars (renderMonDY monthFullCap y m d) =
      .ok (some (isoOfYmd y m d)) := by
  apply formatDueDateChars_of _ (renderMonDY_ne_nil monthFullCap y m d) y m d
  unfold dateFormats
  rw [tryFormats_cons_none _ _ _
        (parseYmd_fail_mon '-' monthFullCap (Or.inr rfl) y m d hm1 hm2),
      tryFormats_cons_none _ _ _
        (parseYmd_fail_mon '/' monthFullCap (Or.inr rfl) y m d hm1 hm2),
      tryFormats_cons_none _ _ _
        (parseDmy_fail_mon '-' monthFullCap (Or.inr rfl) y m d hm1 hm2),
      tryFormats_cons_none _ _ _
        (parseDmy_fail_mon '/' monthFullCap (Or.inr rfl) y m d hm1 hm2)]
  by_cases hm5 : m = 5
  · subst hm5
    have h5 : parseMonDY monthAbbrevs (renderMonDY monthFullCap y 5 d) =
        some (y, 5, d) :=
      parseMonDY_abbr_ok y 5 d hy (by norm_num) (by norm_num) hd1 hd31
    exact tryFormats_cons_some _ _ _ y 5 d h5 hv
  · rw [tryFormats_cons_none _ _ _ (parseMonDY_abbr_fail_full y m d hm1 hm2 hm5)]
    exact tryFormats_cons_some _ _ _ y m d
      (parseMonDY_full_ok y m d hy hm1 hm2 hd1 hd31) hv

theorem fddChars_r7 (y m d : Nat) (hy : y ≤ 9999) (hm1 : 1 ≤ m) (hm2 : m ≤ 12)
    (hd1 : 1 ≤ d) (hd31 : d ≤ 31) (hv : validYmd y m d = true) :
    formatDueDateChars (renderDMonY monthAbbrCap y m d) =
      .ok (some (isoOfYmd y m d)) := by
  apply formatDueDateChars_of _ (renderDMonY_ne_nil monthAbbrCap y m d) y m d
  unfold dateFormats
  have f3 : parseDmy '-' (renderDMonY monthAbbrCap y m d) = none :=
    parseDmy_fail_nonsep '-' rfl d hd1 hd31 ' ' (by decide)
      (monthAbbrCap m ++ ' ' :: render4 y)
  have f4 : parseDmy '/' (renderDMonY monthAbbrCap y m d) = none :=
    parseDmy_fail_nonsep '/' rfl d hd1 hd31 ' ' (by decide)
      (monthAbbrCap m ++ ' ' :: render4 y)
  rw [tryFormats_cons_none _ _ _ (parseYmd_fail_dmon '-' monthAbbrCap y m d),
      tryFormats_cons_none _ _ _ (parseYmd_fail_dmon '/' monthAbbrCap y m d),
      tryFormats_cons_none _ _ _ f3,
      tryFormats_cons_none _ _ _ f4,
      tryFormats_cons_none _ _ _ (parseMonDY_abbr_fail_dmon monthAbbrCap y m d),
      tryFormats_cons_none _ _ _ (parseMonDY_full_fail_dmon monthAbbrCap y m d)]
  exact tryFormats_cons_some _ _ _ y m d
    (parseDMonY_abbr_ok y m d hy hm1 hm2 hd1 hd31) hv

theorem fddChars_r8 (y m d : Nat) (hy : y ≤ 9999) (hm1 : 1 ≤ m) (hm2 : m ≤ 12)
    (hd1 : 1 ≤ d) (hd31 : d ≤ 31) (hv : validYmd y m d = true) :
    formatDueDateChars (renderDMonY monthFullCap y m d) =
      .ok (some (isoOfYmd y m d)) := by
  apply formatDueDateChars_of _ (renderDMonY_ne_nil monthFullCap y m d) y m d
  unfold dateFormats
  have f3 : parseDmy '-' (renderDMonY monthFullCap y m d) = none :=
    parseDmy_fail_nonsep '-' rfl d hd1 hd31 ' ' (by decide)
      (monthFullCap m ++ ' ' :: render4 y)
  have f4 : parseDmy '/' (renderDMonY monthFullCap y m d) = none :=
    parseDmy_fail_nonsep '/' rfl d hd1 hd31 ' ' (by decide)
      (monthFullCap m ++ ' ' :: render4 y)
  rw [tryFormats_cons_none _ _ _ (parseYmd_fail_dmon '-' monthFullCap y m d),
      tryFormats_cons_none _ _ _ (parseYmd_fail_dmon '/' monthFullCap y m d),
      tryFormats_cons_none _ _ _ f3,
      tryFormats_cons_none _ _ _ f4,
      tryFormats_cons_none _ _ _ (parseMonDY_abbr_fail_dmon monthFullCap y m d),
      tryFormats_cons_none _ _ _ (parseMonDY_full_fail_dmon monthFullCap y m d)]
  by_cases hm5 : m = 5
  · subst hm5
    have h7 : parseDMonY monthAbbrevs (renderDMonY monthFullCap y 5 d) =
        some (y, 5, d) :=
      parseDMonY_abbr_ok y 5 d hy (by norm_num) (by norm_num) hd1 hd31
    exact tryFormats_cons_some _ _ _ y 5 d h7 hv
  · rw [tryFormats_cons_none _ _ _
      (parseDMonY_abbr_fail_full y m d hm1 hm2 hm5 hd1 hd31)]
    exact tryFormats_cons_some _ _ _ y m d
      (parseDMonY_full_ok y m d hy hm1 hm2 hd1 hd31) hv

/-- Claim C6 theorem: _format_due_date tries the eight formats in the fixed
source order and takes the first that parses; for any valid calendar date
(years 1000-9999, where CPython's %Y output is platform-independent), all
eight textual forms of that date normalize to the identical string
YYYY-MM-DDT23:59:59Z. -/
theorem format_due_date_deterministic (y m d : Nat) (hy1 : 1000 ≤ y)
    (hy2 : y ≤ 9999) (hm1 : 1 ≤ m) (hm2 : m ≤ 12) (hd1 : 1 ≤ d)
    (hd2 : d ≤ daysInMonth y m) :
    ∀ r ∈ dateRenderings y m d,
      formatDueDateChars r = .ok (some (isoOfYmd y m d)) := by
  have hd31 : d ≤ 31 := le_trans hd2 (daysInMonth_le y m)
  have hv : validYmd y m d = true := by
    simp only [validYmd, Bool.and_eq_true, decide_eq_true_eq]
    omega
  intro r hr
  simp only [dateRenderings, List.mem_cons, List.not_mem_nil, or_false] at hr
  rcases hr with rfl | rfl | rfl | rfl | rfl | rfl | rfl | rfl
  · exact fddChars_r1 y m d hy2 hm1 hm2 hd1 hd31 hv
  · exact fddChars_r2 y m d hy2 hm1 hm2 hd1 hd31 hv
  · exact fddChars_r3 y m d hy2 hm1 hm2 hd1 hd31 hv
  · exact fddChars_r4 y m d hy2 hm1 hm2 hd1 hd31 hv
  · exact fddChars_r5 y m d hy2 hm1 hm2 hd1 hd31 hv
  · exact fddChars_r6 y m d hy2 hm1 hm2 hd1 hd31 hv
  · exact fddChars_r7 y m d hy2 hm1 hm2 hd1 hd31 hv
  · exact fddChars_r8 y m d hy2 hm1 hm2 hd1 hd31 hv

/-- Claim C6 witness: the 2025/05/04 rendering normalizes as the theorem
states. -/
theorem format_due_date_deterministic_witness :
    formatDueDateChars (renderYmdSep '/' 2025 5 4) =
      .ok (some (isoOfYmd 2025 5 4)) ∧
    format_due_date "2025/05/04" = .ok (some "2025-05-04T23:59:59Z") :=
  ⟨format_due_date_deterministic 2025 5 4 (by norm_num) (by norm_num) (by norm_num)
    (by norm_num) (by norm_num) (by decide) (renderYmdSep '/' 2025 5 4)
    (by simp [dateRenderings]), rfl⟩

/-! ## Concrete evaluations of the date normalizer -/

example : format_due_date "2025-05-04" = .ok (some "2025-05-04T23:59:59Z") := rfl
example : format_due_date "2025/05/04" = .ok (some "2025-05-04T23:59:59Z") := rfl
example : format_due_date "04-05-2025" = .ok (some "2025-05-04T23:59:59Z") := rfl
example : format_due_date "04/05/2025" = .ok (some "2025-05-04T23:59:59Z") := rfl
example : format_due_date "May 04, 2025" = .ok (some "2025-05-04T23:59:59Z") := rfl
example : format_due_date "04 May 2025" = .ok (some "2025-05-04T23:59:59Z") := rfl
example : format_due_date "March 04, 2025" = .ok (some "2025-03-04T23:59:59Z") := rfl
example : format_due_date "04 March 2025" = .ok (some "2025-03-04T23:59:59Z") := rfl
example : format_due_date "not-a-date" = .error () := rfl
example : format_due_date "2025-02-30" = .error () := rfl
example : format_due_date "2024-02-29" = .ok (some "2024-02-29T23:59:59Z") := rfl
example : format_due_date "" = .ok none := rfl
